import Mathlib

/-!
Shallow embedding of the dialogue-state machine and request router of the
chatbot-office-assistant repository (src/features/speech_acts.py,
src/features/context.py, src/features/repairs.py, src/core/router.py).

Modelling conventions, used throughout:
* Python scalar slot values are modelled by `Val` (str / bool / int / float /
  None); Python floats appearing here are small decimals, modelled exactly by
  `Rat`.  Python `==` (which identifies 0, 0.0 and False) is `pyEq`;
  truthiness is `truthy`.
* Python dicts used as slot maps are association lists (`Slots`) with
  dict-faithful lookup (`pyGet`, returning None for a missing key, like
  `dict.get`), key membership (`hasKey`) and update (`Slots.set`).
* The regular expressions of the source are embedded as terms of a small
  pattern AST `RE` (literals, concatenation, alternation, option, character
  runs, word boundary, end-of-string) with a backtracking matcher whose
  candidate ends are produced in greedy order, matching `re` semantics for
  the pattern shapes that occur in the source.  Each embedded pattern carries
  the original regex in a comment.
* The whole classification pipeline of the source is case-insensitive
  (every pattern uses re.I and every scan runs on `text.lower()`), so the
  extraction functions are defined over the lowercased text.
-/

/-- Python scalar values as they occur in slot maps. -/
inductive Val where
  | str (s : String)
  | int (n : Int)
  | bool (b : Bool)
  | float (q : Rat)
  | none
deriving DecidableEq, Repr

/-- Python `==` on the scalar values: numeric cross-type equality, with
`True == 1`, `False == 0`, `0.0 == False`, etc.; `None` equal only to
itself; strings equal only to equal strings. -/
def pyEq : Val → Val → Bool
  | Val.none, Val.none => true
  | Val.str a, Val.str b => a == b
  | Val.bool a, Val.bool b => a == b
  | Val.int a, Val.int b => a == b
  | Val.float a, Val.float b => a == b
  | Val.bool a, Val.int n => (if a then (1 : Int) else 0) == n
  | Val.int n, Val.bool a => n == (if a then (1 : Int) else 0)
  | Val.bool a, Val.float q => (if a then (1 : Rat) else 0) == q
  | Val.float q, Val.bool a => q == (if a then (1 : Rat) else 0)
  | Val.int n, Val.float q => (n : Rat) == q
  | Val.float q, Val.int n => q == (n : Rat)
  | _, _ => false

/-- Python truthiness of a scalar value. -/
def truthy : Val → Bool
  | Val.str s => s ≠ ""
  | Val.int n => n ≠ 0
  | Val.bool b => b
  | Val.float q => q ≠ 0
  | Val.none => false

/-- A Python dict holding slot values, as an association list. -/
abbrev Slots := List (String × Val)

/-- Python `slots.get(k)`: first binding of `k`, else None. -/
def pyGet : Slots → String → Val
  | [], _ => Val.none
  | p :: t, k => if p.1 == k then p.2 else pyGet t k

/-- Python `k in slots`: key membership. -/
def hasKey : Slots → String → Bool
  | [], _ => false
  | p :: t, k => p.1 == k || hasKey t k

/-- Replace the value at every binding of an existing key, in place. -/
def setExisting : Slots → String → Val → Slots
  | [], _, _ => []
  | p :: t, k, v => (if p.1 == k then (k, v) else p) :: setExisting t k v

/-- Python `slots[k] = v`: replace the value at an existing key in place,
else append the new binding (dict update semantics). -/
def Slots.set (l : Slots) (k : String) (v : Val) : Slots :=
  if hasKey l k then setExisting l k v else l ++ [(k, v)]

/-- Last `n` elements of a list (Python `l[-n:]`). -/
def takeLast (n : Nat) (l : List α) : List α :=
  l.drop (l.length - n)

-- ---------------------------------------------------------------------
-- Basic text helpers (Python str methods)
-- ---------------------------------------------------------------------

/-- Python `\w`: letters, digits, underscore (ASCII view). -/
def isWordChar (c : Char) : Bool := c.isAlphanum || c == '_'

/-- Python `str.lower()` (ASCII view). -/
def pyLower (s : String) : String := String.mk (s.toList.map Char.toLower)

/-- Python `str.strip()`. -/
def pyStrip (s : String) : String :=
  String.mk (((s.toList.dropWhile Char.isWhitespace).reverse.dropWhile
    Char.isWhitespace).reverse)

/-- Maximal runs of characters satisfying `p`. -/
def runsByAux (p : Char → Bool) : Option (List Char) → List Char →
    List (List Char)
  | acc, [] => (match acc with | some w => [w.reverse] | Option.none => [])
  | acc, c :: cs =>
      if p c then
        runsByAux p (some (c :: (match acc with
          | some w => w
          | Option.none => []))) cs
      else
        (match acc with | some w => [w.reverse] | Option.none => [])
          ++ runsByAux p Option.none cs

/-- Maximal runs of characters satisfying `p`, as strings. -/
def runsBy (p : Char → Bool) (s : String) : List String :=
  (runsByAux p Option.none s.toList).map String.mk

/-- Python `str.split()` (split on whitespace runs, dropping empties). -/
def wsTokens (s : String) : List String :=
  runsBy (fun c => !c.isWhitespace) s

/-- Does `sub` occur at index `i` of `cs`? -/
def subAt (cs sub : List Char) (i : Nat) : Bool :=
  (cs.drop i).take sub.length == sub

/-- Python `sub in s`: plain substring containment. -/
def containsSub (s sub : String) : Bool :=
  let cs := s.toList
  let ss := sub.toList
  (List.range (cs.length + 1)).any (fun i => subAt cs ss i)

/-- The apostrophe character, referred to by code point. -/
def apoChar : Char := Char.ofNat 39

/-- The apostrophe as a one-character string. -/
def apoStr : String := String.singleton apoChar

/-- The right single quotation mark (U+2019) as a one-character string. -/
def rsqStr : String := String.singleton (Char.ofNat 8217)

-- ---------------------------------------------------------------------
-- A small pattern AST covering the regex shapes used by the source
-- ---------------------------------------------------------------------

/-- Pattern AST: literals, concatenation, alternation, option, character
runs (`many` = zero-or-more, `many1` = one-or-more, `one` = exactly one),
word boundary and end of string. -/
inductive RE where
  | lit (s : String)
  | cat (a b : RE)
  | alt (a b : RE)
  | opt (a : RE)
  | many (p : Char → Bool)
  | many1 (p : Char → Bool)
  | one (p : Char → Bool)
  | wb
  | eos

/-- Is the character at index `j` (if any) a word character? -/
def wAt (cs : List Char) (j : Nat) : Bool :=
  match cs.get? j with
  | some c => isWordChar c
  | Option.none => false

/-- Is there a `\b` word boundary at position `i`? -/
def wbAt (cs : List Char) (i : Nat) : Bool :=
  let before := if i = 0 then false else wAt cs (i - 1)
  before != wAt cs i

/-- Length of the run of characters satisfying `p` starting the list. -/
def runLen (p : Char → Bool) : List Char → Nat
  | [] => 0
  | c :: cs => if p c then runLen p cs + 1 else 0

/-- All candidate end positions of a match of `r` in `cs` starting at `i`,
in backtracking (greedy-first) order. -/
def RE.ends : RE → List Char → Nat → List Nat
  | RE.lit s, cs, i => if subAt cs s.toList i then [i + s.length] else []
  | RE.cat a b, cs, i => (RE.ends a cs i).flatMap (fun j => RE.ends b cs j)
  | RE.alt a b, cs, i => RE.ends a cs i ++ RE.ends b cs i
  | RE.opt a, cs, i => RE.ends a cs i ++ [i]
  | RE.many p, cs, i =>
      ((List.range (runLen p (cs.drop i) + 1)).map (fun k => i + k)).reverse
  | RE.many1 p, cs, i =>
      (((List.range (runLen p (cs.drop i) + 1)).map (fun k => i + k)).reverse).dropLast
  | RE.one p, cs, i =>
      match cs.get? i with
      | some c => if p c then [i + 1] else []
      | Option.none => []
  | RE.wb, cs, i => if wbAt cs i then [i] else []
  | RE.eos, cs, i => if i = cs.length then [i] else []

/-- Does `r` match somewhere inside `s` (Python `re.search`)? -/
def RE.search (r : RE) (s : String) : Bool :=
  let cs := s.toList
  (List.range (cs.length + 1)).any (fun i => !(RE.ends r cs i).isEmpty)

/-- Does `r` match at the start of `s` (a `^`-anchored `re.search`)? -/
def RE.atStart (r : RE) (s : String) : Bool :=
  !(RE.ends r s.toList 0).isEmpty

/-- Alternation of a list of patterns, in order. -/
def RE.alts : List RE → RE
  | [] => RE.one (fun _ => false)
  | [r] => r
  | r :: rs => RE.alt r (RE.alts rs)

/-- Alternation of literal strings. -/
def RE.strs (ss : List String) : RE := RE.alts (ss.map RE.lit)

/-- Wrap a pattern in word boundaries (`\b ... \b`). -/
def RE.word (r : RE) : RE := RE.cat RE.wb (RE.cat r RE.wb)

/-- Word-bounded alternation of literals (`\b(a|b|...)\b`). -/
def RE.wordStrs (ss : List String) : RE := RE.word (RE.strs ss)

/-- Literal with an optional trailing `s` (regex `xs?`). -/
def RE.plural (s : String) : RE := RE.cat (RE.lit s) (RE.opt (RE.lit "s"))

/-- Regex `\s*`. -/
def ws0 : RE := RE.many Char.isWhitespace

/-- Regex `\s+`. -/
def ws1 : RE := RE.many1 Char.isWhitespace

/-- Regex `[-\s]?`: optional dash-or-space. -/
def dashSp : RE := RE.opt (RE.one (fun c => c == '-' || c.isWhitespace))

-- ---------------------------------------------------------------------
-- features/speech_acts.py : pattern tables
-- ---------------------------------------------------------------------

/-- VENUE_SYNONYMS for "restaurant", one `RE` per source pattern, in source
order.  Original regexes quoted in comments. -/
def restaurantPats : List RE := [
  RE.word (RE.plural "restaurant"),                       -- \brestaurants?\b
  RE.word (RE.lit "resto"),                               -- \bresto\b
  RE.word (RE.lit "resturant"),                           -- \bresturant\b
  RE.word (RE.lit "restaraunt"),                          -- \brestaraunt\b
  RE.word (RE.cat (RE.lit "eat") (RE.strs ["ery", "eries"])),  -- \beat(?:ery|eries)\b
  RE.word (RE.plural "diner"),                            -- \bdiners?\b
  RE.word (RE.plural "steakhouse"),                       -- \bsteakhouses?\b
  RE.word (RE.plural "pizzeria"),                         -- \bpizzerias?\b
  RE.alt (RE.word (RE.plural "trattoria")) (RE.word (RE.lit "trattorie")),
    -- \btrattorias?\b|\btrattorie\b
  RE.alt (RE.word (RE.plural "osteria")) (RE.word (RE.lit "osterie")),
    -- \bosterias?\b|\bosterie\b
  RE.alts [RE.word (RE.plural "taverna"), RE.word (RE.plural "tavern"),
           RE.word (RE.lit "taverna")],
    -- \btavernas?\b|\btaverns?\b|\btaverna\b
  RE.alt (RE.word (RE.cat (RE.lit "grill") (RE.cat ws0 (RE.plural "house"))))
         (RE.word (RE.plural "grill")),
    -- \bgrill\s*houses?\b|\bgrills?\b
  RE.word (RE.plural "roasterie"),                        -- \broasteries?\b
  RE.word (RE.cat (RE.lit "fast") (RE.cat ws0 (RE.lit "food"))),  -- \bfast\s*food\b
  RE.alt (RE.word (RE.cat (RE.lit "take") (RE.cat dashSp (RE.plural "away"))))
         (RE.word (RE.plural "takeout")),
    -- \btake[-\s]?aways?\b|\btakeouts?\b
  RE.alts [RE.word (RE.cat (RE.lit "souvlak") (RE.strs ["i", "ia"])),
           RE.word (RE.cat (RE.lit "gyr")
             (RE.cat (RE.opt (RE.lit "o")) (RE.opt (RE.lit "s")))),
           RE.word (RE.plural "kebab"),
           RE.word (RE.cat (RE.lit "meze") (RE.opt (RE.lit "dopolio"))),
           RE.word (RE.cat (RE.lit "mezz") (RE.opt (RE.lit "e")))],
    -- \bsouvlak(?:i|ia)\b|\bgyro?s?\b|\bkebabs?\b|\bmeze(dopolio)?\b|\bmezze?\b
  RE.word (RE.plural "brasserie"),                        -- \bbrasseries?\b
  RE.word (RE.plural "bistro"),                           -- \bbistros?\b
  RE.word (RE.lit "food")]                                -- \bfood\b

/-- VENUE_SYNONYMS for "cafe", in source order. -/
def cafePats : List RE := [
  RE.word (RE.cat (RE.lit "caf")
    (RE.cat (RE.alt (RE.lit "e") (RE.lit "é")) (RE.opt (RE.lit "s")))),
    -- \bcaf(?:e|é)s?\b
  RE.word (RE.cat (RE.lit "coffee") (RE.cat ws0 (RE.plural "shop"))),
    -- \bcoffee\s*shops?\b
  RE.word (RE.plural "coffee"),                           -- \bcoffees?\b
  RE.word (RE.cat (RE.lit "espresso") (RE.cat ws0 (RE.plural "bar"))),
    -- \bespresso\s*bars?\b
  RE.alt (RE.word (RE.lit "brunch")) (RE.word (RE.lit "breakfast")),
    -- \bbrunch\b|\bbreakfast\b
  RE.alts [RE.word (RE.plural "bakerie"), RE.word (RE.plural "patisserie"),
           RE.word (RE.cat (RE.lit "pastry") (RE.cat ws0 (RE.plural "shop"))),
           RE.word (RE.cat (RE.lit "confectioner") (RE.opt (RE.lit "y")))],
    -- \bbakeries?\b|\bpatisseries?\b|\bpastry\s*shops?\b|\bconfectioner(?:y)?\b
  RE.alts [RE.word (RE.plural "gelateria"),
           RE.word (RE.cat (RE.lit "ice") (RE.cat ws0 (RE.lit "cream"))),
           RE.word (RE.cat (RE.lit "dessert") (RE.cat ws0 (RE.plural "bar"))),
           RE.word (RE.plural "creperie"), RE.word (RE.plural "bagel"),
           RE.word (RE.plural "donut")],
    -- \bgelaterias?\b|\bice\s*cream\b|\bdessert\s*bars?\b|\bcreperies?\b|\bbagels?\b|\bdonuts?\b
  RE.word (RE.plural "cafeteria")]                        -- \bcafeterias?\b

/-- VENUE_SYNONYMS for "bar", in source order. -/
def barPats : List RE := [
  RE.word (RE.plural "bar"),                              -- \bbars?\b
  RE.word (RE.plural "pub"),                              -- \bpubs?\b
  RE.alt (RE.word (RE.cat (RE.lit "brewer") (RE.strs ["y", "ies"])))
         (RE.word (RE.plural "taproom")),
    -- \bbrewer(?:y|ies)\b|\btaprooms?\b
  RE.word (RE.cat (RE.lit "wine") (RE.cat ws0 (RE.plural "bar"))),
    -- \bwine\s*bars?\b
  RE.alt (RE.word (RE.cat (RE.lit "cocktail") (RE.cat ws0 (RE.plural "bar"))))
         (RE.word (RE.plural "cocktail")),
    -- \bcocktail\s*bars?\b|\bcocktails?\b
  RE.cat (RE.word (RE.lit "outlet"))
         (RE.cat (RE.many (fun c => c != Char.ofNat 10)) (RE.word (RE.plural "drink"))),
    -- \boutlet\b.*\bdrinks?\b  (`.` excludes the newline)
  RE.alts [RE.word (RE.plural "ouzeri"), RE.word (RE.lit "ouzeries"),
           RE.word (RE.plural "ouzeria")],
    -- \bouzeris?\b|\bouzeries\b|\bouzerias?\b
  RE.word (RE.plural "lounge")]                           -- \blounges?\b

/-- VENUE_PATTERNS: the flattened (pattern, canonical type) table, in the
insertion order of VENUE_SYNONYMS (restaurant, cafe, bar). -/
def venuePatterns : List (RE × String) :=
  restaurantPats.map (fun r => (r, "restaurant"))
  ++ cafePats.map (fun r => (r, "cafe"))
  ++ barPats.map (fun r => (r, "bar"))

/-- NEIGHBORHOOD_ALIASES: ordered (pattern, canonical label) list. -/
def neighborhoodAliases : List (RE × String) := [
  (RE.word (RE.cat (RE.lit "syntagma") (RE.opt (RE.cat ws1 (RE.lit "square")))),
    "Syntagma"),                                          -- \bsyntagma(\s+square)?\b
  (RE.word (RE.strs ["pláka", "plaka"]), "Plaka"),        -- \bpláka\b|\bplaka\b
  (RE.word (RE.lit "monastiraki"), "Monastiraki"),
  (RE.word (RE.lit "kolonaki"), "Kolonaki"),
  (RE.word (RE.strs ["koukaki", "kukaki"]), "Koukaki"),
  (RE.word (RE.strs ["exarcheia", "exarchia"]), "Exarchia"),
  (RE.word (RE.strs ["psiri", "psyrri"]), "Psyrri")]

/-- WIFI_PAT = `\b(wifi|wi[-\s]?fi|internet)\b`. -/
def wifiPat : RE :=
  RE.word (RE.alts [RE.lit "wifi",
    RE.cat (RE.lit "wi") (RE.cat dashSp (RE.lit "fi")), RE.lit "internet"])

/-- OUTDOOR_PAT = `\b(outdoor|outside|terrace|patio|garden|sidewalk|veranda)\b`. -/
def outdoorPat : RE :=
  RE.wordStrs ["outdoor", "outside", "terrace", "patio", "garden", "sidewalk",
    "veranda"]

/-- VEGGIE_PAT = `\b(vegan|vegetarian|veg[-\s]?friendly)\b`. -/
def veggiePat : RE :=
  RE.word (RE.alts [RE.lit "vegan", RE.lit "vegetarian",
    RE.cat (RE.lit "veg") (RE.cat dashSp (RE.lit "friendly"))])

/-- ALCO_PAT = `\b(alcohol|drinks?|cocktails?|beer|wine)\b`. -/
def alcoPat : RE :=
  RE.word (RE.alts [RE.lit "alcohol", RE.plural "drink", RE.plural "cocktail",
    RE.lit "beer", RE.lit "wine"])

/-- RES_PAT = `\b(reservations?|book|table|reserve)\b`. -/
def resPat : RE :=
  RE.word (RE.alts [RE.plural "reservation", RE.lit "book", RE.lit "table",
    RE.lit "reserve"])

/-- PAY_PAT = `\b(cash|visa|mastercard|amex|american express|paypal|card|cards)\b`. -/
def payPat : RE :=
  RE.wordStrs ["cash", "visa", "mastercard", "amex", "american express",
    "paypal", "card", "cards"]

/-- OPEN_NOW_PAT = `\b(open now|open\s*(right\s*)?now|hours|opening)\b`. -/
def openNowPat : RE :=
  RE.word (RE.alts [RE.lit "open now",
    RE.cat (RE.lit "open") (RE.cat ws0
      (RE.cat (RE.opt (RE.cat (RE.lit "right") ws0)) (RE.lit "now"))),
    RE.lit "hours", RE.lit "opening"])

/-- NEAR_PAT = `\bnear(by)?\b|\bclose\s*to\b|near me|nearby|close by|around here`. -/
def nearPat : RE :=
  RE.alts [RE.word (RE.cat (RE.lit "near") (RE.opt (RE.lit "by"))),
    RE.word (RE.cat (RE.lit "close") (RE.cat ws0 (RE.lit "to"))),
    RE.lit "near me", RE.lit "nearby", RE.lit "close by", RE.lit "around here"]

/-- SORT_BEST_PAT = `\b(best|top|highest[-\s]?rated)\b`. -/
def sortBestPat : RE :=
  RE.word (RE.alts [RE.lit "best", RE.lit "top",
    RE.cat (RE.lit "highest") (RE.cat dashSp (RE.lit "rated"))])

/-- SORT_CHEAP_PAT =
`\b(cheap|cheapest|budget|value|affordable|inexpensive|low[-\s]?cost|good value)\b`. -/
def sortCheapPat : RE :=
  RE.word (RE.alts [RE.lit "cheap", RE.lit "cheapest", RE.lit "budget",
    RE.lit "value", RE.lit "affordable", RE.lit "inexpensive",
    RE.cat (RE.lit "low") (RE.cat dashSp (RE.lit "cost")), RE.lit "good value"])

/-- CUISINE_PATTERNS: (lower-case canonical name, pattern), in dict insertion
order; the returned slot value is the title-cased name (see extractCuisine). -/
def cuisinePatterns : List (String × RE) := [
  ("italian", RE.word (RE.lit "italian")),
  ("greek", RE.word (RE.lit "greek")),
  ("japanese", RE.alt (RE.word (RE.lit "japanese")) (RE.word (RE.lit "sushi"))),
    -- \bjapanese\b|\bsushi\b
  ("mexican", RE.word (RE.lit "mexican")),
  ("indian", RE.word (RE.lit "indian")),
  ("thai", RE.word (RE.lit "thai")),
  ("chinese", RE.word (RE.lit "chinese")),
  ("mediterranean", RE.word (RE.lit "mediterranean")),
  ("seafood", RE.word (RE.cat (RE.lit "sea") (RE.cat ws0 (RE.lit "food")))),
    -- \bsea\s*food\b
  ("pizza", RE.word (RE.lit "pizza")),
  ("burgers", RE.word (RE.plural "burger")),              -- \bburgers?\b
  ("vegan", RE.word (RE.lit "vegan")),
  ("vegetarian", RE.word (RE.lit "vegetarian")),
  ("middle eastern",
    RE.alts [RE.word (RE.cat (RE.lit "middle") (RE.cat ws1 (RE.lit "eastern"))),
      RE.word (RE.lit "lebanese"), RE.word (RE.lit "turkish")])]
    -- \bmiddle\s+eastern\b|\blebanese\b|\bturkish\b

/-- DB_HARD =
`\b(tasks?|todo|appointments?|meeting|schedule|calendar|staff|assign|resched|reschedule)\b`. -/
def dbHardPat : RE :=
  RE.word (RE.alts [RE.plural "task", RE.lit "todo", RE.plural "appointment",
    RE.lit "meeting", RE.lit "schedule", RE.lit "calendar", RE.lit "staff",
    RE.lit "assign", RE.lit "resched", RE.lit "reschedule"])

/-- CONFIRM_PAT =
`\b(yes|yeah|yep|correct|do it|go ahead|sounds good|ok(ay)?|please proceed)\b`. -/
def confirmPat : RE :=
  RE.word (RE.alts [RE.lit "yes", RE.lit "yeah", RE.lit "yep", RE.lit "correct",
    RE.lit "do it", RE.lit "go ahead", RE.lit "sounds good",
    RE.cat (RE.lit "ok") (RE.opt (RE.lit "ay")), RE.lit "please proceed"])

/-- CANCEL_PAT = `\b(cancel(?:\s*(?:it|that))?|never[\s\-]?mind|nvm|stop|abort`
`|undo|don'?t\s+(?:do|proceed)|do\s+not\s+(?:do|proceed))\b`. -/
def cancelPat : RE :=
  RE.word (RE.alts [
    RE.cat (RE.lit "cancel") (RE.opt (RE.cat ws0 (RE.strs ["it", "that"]))),
    RE.cat (RE.lit "never") (RE.cat dashSp (RE.lit "mind")),
    RE.lit "nvm", RE.lit "stop", RE.lit "abort", RE.lit "undo",
    RE.cat (RE.lit "don") (RE.cat (RE.opt (RE.lit apoStr))
      (RE.cat (RE.lit "t") (RE.cat ws1 (RE.strs ["do", "proceed"])))),
    RE.cat (RE.lit "do") (RE.cat ws1
      (RE.cat (RE.lit "not") (RE.cat ws1 (RE.strs ["do", "proceed"]))))])

/-- IMPERATIVE_VERBS = `^(show|find|list|give|tell|check|lookup|look up|filter`
`|summarize|book|schedule|add|create|send|draft)\b` (anchored at the start). -/
def imperativeVerbsPat : RE :=
  RE.cat (RE.strs ["show", "find", "list", "give", "tell", "check", "lookup",
    "look up", "filter", "summarize", "book", "schedule", "add", "create",
    "send", "draft"]) RE.wb

/-- GREET_PAT = `\b(hey|hello|hi|good\s*(morning|evening|afternoon))\b`. -/
def greetPat : RE :=
  RE.word (RE.alts [RE.lit "hey", RE.lit "hello", RE.lit "hi",
    RE.cat (RE.lit "good") (RE.cat ws0
      (RE.strs ["morning", "evening", "afternoon"]))])

/-- GOODBYE_PAT = `\b(bye|good\s*bye|see\s*you|later|good\s*night)\b`. -/
def goodbyePat : RE :=
  RE.word (RE.alts [RE.lit "bye",
    RE.cat (RE.lit "good") (RE.cat ws0 (RE.lit "bye")),
    RE.cat (RE.lit "see") (RE.cat ws0 (RE.lit "you")),
    RE.lit "later",
    RE.cat (RE.lit "good") (RE.cat ws0 (RE.lit "night"))])

/-- AFFIRM_PAT = `\b(yes|y|indeed|of course|correct|sure|okay|ok|sounds good)\b`. -/
def affirmPat : RE :=
  RE.wordStrs ["yes", "y", "indeed", "of course", "correct", "sure", "okay",
    "ok", "sounds good"]

/-- DENY_PAT = `\b(no|n|never|not really|nope|cancel|stop)\b`. -/
def denyPat : RE :=
  RE.wordStrs ["no", "n", "never", "not really", "nope", "cancel", "stop"]

/-- MOOD_GREAT_PAT = `\b(perfect|great|amazing|wonderful|very good|super|fantastic|happy)\b`. -/
def moodGreatPat : RE :=
  RE.wordStrs ["perfect", "great", "amazing", "wonderful", "very good",
    "super", "fantastic", "happy"]

/-- MOOD_UNHAPPY_PAT = `\b(horrible|sad|unhappy|not good|disappointed|annoyed`
`|frustrated|upset|tired|stressed)\b`. -/
def moodUnhappyPat : RE :=
  RE.wordStrs ["horrible", "sad", "unhappy", "not good", "disappointed",
    "annoyed", "frustrated", "upset", "tired", "stressed"]

/-- The extra unhappy cue `\bnot\s+great\b` checked alongside MOOD_UNHAPPY_PAT. -/
def notGreatPat : RE :=
  RE.word (RE.cat (RE.lit "not") (RE.cat ws1 (RE.lit "great")))

/-- BOT_CHALLENGE_PAT =
`\b(are you a (bot|human)\??|am i talking to (a )?(bot|human)\??)\b`. -/
def botChallengePat : RE :=
  RE.word (RE.alts [
    RE.cat (RE.lit "are you a ")
      (RE.cat (RE.strs ["bot", "human"]) (RE.opt (RE.lit "?"))),
    RE.cat (RE.lit "am i talking to ")
      (RE.cat (RE.opt (RE.lit "a "))
        (RE.cat (RE.strs ["bot", "human"]) (RE.opt (RE.lit "?"))))])

/-- THANKS_PAT = `\b(thanks?|thank you|appreciate it)\b`. -/
def thanksPat : RE :=
  RE.word (RE.alts [RE.plural "thank", RE.lit "thank you",
    RE.lit "appreciate it"])

/-- APOLOGY_PAT = `\b(sorry|my bad|apologies|pardon)\b`. -/
def apologyPat : RE :=
  RE.wordStrs ["sorry", "my bad", "apologies", "pardon"]

/-- PROMISE_PAT = `\b(i ('?ll|will|shall|can)\s*(do|handle|fix|take care))\b`. -/
def promisePat : RE :=
  RE.word (RE.cat (RE.lit "i ")
    (RE.cat (RE.alts [RE.cat (RE.opt (RE.lit apoStr)) (RE.lit "ll"),
        RE.lit "will", RE.lit "shall", RE.lit "can"])
      (RE.cat ws0 (RE.strs ["do", "handle", "fix", "take care"]))))

/-- PLAN_PAT = `\b(let('?s)?|we could|we should)\s+(do|go|book|plan|organize|schedule)\b`. -/
def planPat : RE :=
  RE.cat RE.wb
    (RE.cat (RE.alts [
        RE.cat (RE.lit "let")
          (RE.opt (RE.cat (RE.opt (RE.lit apoStr)) (RE.lit "s"))),
        RE.lit "we could", RE.lit "we should"])
      (RE.cat ws1
        (RE.cat (RE.strs ["do", "go", "book", "plan", "organize", "schedule"])
          RE.wb)))

/-- ORDER_PAT = `\b(order|book|schedule|create|add|assign|find|show|send|set up|make)\b`. -/
def orderPat : RE :=
  RE.wordStrs ["order", "book", "schedule", "create", "add", "assign", "find",
    "show", "send", "set up", "make"]

/-- QUESTION_PAT = `\?$|^\s*(can|could|would|will|do|does|did|how|what|when|where|why|which|who)\b`:
a trailing question mark, or a leading interrogative/modal word. -/
def questionSearch (s : String) : Bool :=
  (let cs := s.toList
   let cs2 := if cs.getLast? == some (Char.ofNat 10) then cs.dropLast else cs
   cs2.getLast? == some '?') ||
  RE.atStart (RE.cat ws0 (RE.cat (RE.strs ["can", "could", "would", "will",
    "do", "does", "did", "how", "what", "when", "where", "why", "which",
    "who"]) RE.wb)) s

-- ---------------------------------------------------------------------
-- features/context.py : data model
-- ---------------------------------------------------------------------

/-- The remembered venue descriptor stored by update_topics_and_entities:
a dict with the raw `slots.get` values for type/neighborhood/cuisine. -/
structure Venue where
  vtype : Val
  vneigh : Val
  vcuis : Val
deriving DecidableEq, Repr

/-- last_entities: remembered person/place values and venue descriptor
(initially all None). -/
structure Entities where
  person : Val
  place : Val
  venue : Option Venue
deriving DecidableEq, Repr

/-- A SPARQL binding row: variable name to value string (the source's
`{var: {"value": v}}` wrapper is collapsed to the value string). -/
abbrev KgRow := List (String × String)

/-- A relational result row. -/
abbrev DbRow := List (String × Val)

/-- The normalized response payload of a ToolEvent. -/
inductive ToolPayload where
  | dbRows (rows : List DbRow)
  | kgBindings (bs : List KgRow)
deriving DecidableEq, Repr

/-- ToolEvent of context.py (the wall-clock `at` timestamp is outside the
model). -/
structure ToolEvent where
  source : String
  subtype : String
  request : String
  payload : ToolPayload
  count : Nat
  elapsed_ms : Int
  error : String
deriving DecidableEq, Repr

/-- Turn of context.py (the `at` timestamp is outside the model;
`act_subtype` holds the raw slot value the router passes, hence `Val`). -/
structure Turn where
  role : String
  text : String
  act_major : Option String
  act_subtype : Val
  intent : Option String
  slots : Slots
  mood : Option String
  tool_events : List ToolEvent
deriving DecidableEq, Repr

/-- The user_profile dict of DialogueState, with its fixed key set. -/
structure UserProfile where
  tone : String
  role : Option String
  role_level : Option Int
  department : Option String
  name : Option String
  staff_id : Option Int
  verified : Bool
  privacy_mode : String
  price_band : String
  verbosity : String
deriving DecidableEq, Repr

/-- The default user_profile of a fresh DialogueState. -/
def initProfile : UserProfile :=
  { tone := "neutral", role := some "employee", role_level := Option.none,
    department := Option.none, name := Option.none, staff_id := Option.none,
    verified := false, privacy_mode := "ask", price_band := "mid",
    verbosity := "normal" }

/-- DialogueState of context.py.  `recent_facts_dyn` models the dynamically
attached `_recent_facts` rolling list (source, count). -/
structure DialogueState where
  slots : Slots
  user_profile : UserProfile
  history : List Turn
  db_enabled : Bool
  history_intents : List String
  next_expected : Option String
  pending_action : Option Slots
  last_sentiment : String
  asked_name_once : Bool
  last_kg_rows : List KgRow
  kg_detail_cache : List (String × KgRow)
  recent_facts_dyn : List (String × Nat)
  topic_id : Option String
  last_entities : Entities
deriving DecidableEq, Repr

/-- A fresh session DialogueState (all dataclass defaults). -/
def initState : DialogueState :=
  { slots := [], user_profile := initProfile, history := [],
    db_enabled := false, history_intents := [], next_expected := Option.none,
    pending_action := Option.none, last_sentiment := "neutral",
    asked_name_once := false, last_kg_rows := [], kg_detail_cache := [],
    recent_facts_dyn := [], topic_id := Option.none,
    last_entities := { person := Val.none, place := Val.none,
                       venue := Option.none } }

-- ---------------------------------------------------------------------
-- features/speech_acts.py : numeric captures and typo normalization
-- ---------------------------------------------------------------------

/-- Digit run length starting at index `i`. -/
def digitRunAt (cs : List Char) (i : Nat) : Nat :=
  runLen Char.isDigit (cs.drop i)

/-- Parse the `n` digits starting at index `i` as a number. -/
def digitsVal (cs : List Char) (i n : Nat) : Nat :=
  ((cs.drop i).take n).foldl (fun acc c => acc * 10 + (c.toNat - 48)) 0

/-- Whitespace run length starting at index `i`. -/
def wsRunAt (cs : List Char) (i : Nat) : Nat :=
  runLen Char.isWhitespace (cs.drop i)

/-- PRICE_MAX_PAT = `(?:under|below|<|<=|up to|no more than)\s*(\d{1,3})\s*€?\s*`:
leftmost keyword occurrence followed (after whitespace) by 1–3 digits; the
trailing optional euro-sign/whitespace cannot fail and is dropped.  Returns
the captured number. -/
def priceMaxAt (cs : List Char) (i : Nat) : Option Nat :=
  (["under", "below", "<", "<=", "up to", "no more than"].map
    String.toList).firstM (fun kw =>
      if subAt cs kw i then
        let j := i + kw.length + wsRunAt cs (i + kw.length)
        let d := digitRunAt cs j
        if d = 0 then Option.none else some (digitsVal cs j (min d 3))
      else Option.none)

/-- Leftmost PRICE_MAX_PAT match over the whole text. -/
def priceMaxFind (s : String) : Option Nat :=
  let cs := s.toList
  ((List.range (cs.length + 1)).firstM (fun i => priceMaxAt cs i))

/-- PRICE_RANGE_PAT = `(\d{1,3})\s*[-–]\s*(\d{1,3})\s*€?\s*`: a 1–3 digit
number, a dash or en-dash, and a second 1–3 digit number. -/
def priceRangeAt (cs : List Char) (i : Nat) : Option (Nat × Nat) :=
  ([3, 2, 1].firstM (fun d =>
    if d ≤ digitRunAt cs i then
      let j := i + d + wsRunAt cs (i + d)
      match cs.get? j with
      | some c =>
        if c == '-' || c == Char.ofNat 8211 then
          let k := j + 1 + wsRunAt cs (j + 1)
          let e := digitRunAt cs k
          if e = 0 then Option.none
          else some (digitsVal cs i d, digitsVal cs k (min e 3))
        else Option.none
      | Option.none => Option.none
    else Option.none))

/-- Leftmost PRICE_RANGE_PAT match over the whole text. -/
def priceRangeFind (s : String) : Option (Nat × Nat) :=
  let cs := s.toList
  ((List.range (cs.length + 1)).firstM (fun i => priceRangeAt cs i))

/-- RATING_MIN_PAT = `(?:rating|stars?)[^\d]{0,6}(\d(?:\.\d)?)`: a rating
keyword, at most six non-digit characters, then a digit with an optional
tenths digit.  Returns the captured decimal as a rational. -/
def ratingMinAt (cs : List Char) (i : Nat) : Option Rat :=
  let kwLen : Option Nat :=
    if subAt cs "rating".toList i then some 6
    else if subAt cs "stars".toList i then some 5
    else if subAt cs "star".toList i then some 4
    else Option.none
  match kwLen with
  | some n =>
    let j := i + n
    let r := runLen (fun c => !(c.isDigit)) (cs.drop j)
    if r ≤ 6 then
      match cs.get? (j + r) with
      | some c =>
        if c.isDigit then
          let d1 : Rat := ((c.toNat - 48 : Nat) : Rat)
          match cs.get? (j + r + 1), cs.get? (j + r + 2) with
          | some dot, some c2 =>
            if dot == '.' && c2.isDigit then
              some (d1 + ((c2.toNat - 48 : Nat) : Rat) / 10)
            else some d1
          | _, _ => some d1
        else Option.none
      | Option.none => Option.none
    else Option.none
  | Option.none => Option.none

/-- Leftmost RATING_MIN_PAT match over the whole text. -/
def ratingMinFind (s : String) : Option Rat :=
  let cs := s.toList
  ((List.range (cs.length + 1)).firstM (fun i => ratingMinAt cs i))

/-- LIMIT_PAT = `\btop\s*(\d{1,2})\b|\bfirst\s*(\d{1,2})\b|\bnext\s*(\d{1,2})\b`:
leftmost match; returns (alternative index 0/1/2, captured number), so that
the source's `m.group(1) or m.group(2)` is some number exactly when the
index is 0 or 1, and None (making `int(None)` raise) when it is 2. -/
def limitAt (cs : List Char) (i : Nat) : Option (Nat × Nat) :=
  if wbAt cs i then
    (([("top", 0), ("first", 1), ("next", 2)] :
        List (String × Nat)).firstM (fun kw =>
      if subAt cs kw.1.toList i then
        let j := i + kw.1.length + wsRunAt cs (i + kw.1.length)
        let d := digitRunAt cs j
        if d = 1 && !(wAt cs (j + 1)) then some (kw.2, digitsVal cs j 1)
        else if d = 2 && !(wAt cs (j + 2)) then some (kw.2, digitsVal cs j 2)
        else Option.none
      else Option.none))
  else Option.none

/-- Leftmost LIMIT_PAT match over the whole text. -/
def limitFind (s : String) : Option (Nat × Nat) :=
  let cs := s.toList
  ((List.range (cs.length + 1)).firstM (fun i => limitAt cs i))

/-- The ordered typo-fix table of `_normalize_typos`. -/
def typoFixes : List (String × String) := [
  ("reastaurant", "restaurant"), ("restarant", "restaurant"),
  ("restauratn", "restaurant"), ("cusine", "cuisine"), ("cuisne", "cuisine"),
  ("cusiune", "cuisine"), ("kolonakii", "kolonaki"), ("psiri", "psyrri"),
  ("exarcheia", "exarchia"), ("kukaki", "koukaki")]

/-- Is a whole-word occurrence of `wrong` starting here (previous character
`prev`)?  All fixes are alphabetic words, so the surrounding `\b` amounts to
non-word neighbours. -/
def wordHereOk (prev : Option Char) (cs wrong : List Char) : Bool :=
  (match prev with | some p => !(isWordChar p) | Option.none => true)
  && subAt cs wrong 0
  && (match (cs.drop wrong.length).head? with
      | some c => !(isWordChar c)
      | Option.none => true)

/-- One pass of `re.sub(rf"\b{wrong}\b", right, s)` over the characters. -/
def replaceWordAux (wrong right : List Char) :
    Nat → Option Char → List Char → List Char
  | _, _, [] => []
  | 0, _, cs => cs
  | fuel + 1, prev, c :: cs =>
      if wordHereOk prev (c :: cs) wrong then
        right ++ replaceWordAux wrong right fuel wrong.getLast?
          ((c :: cs).drop wrong.length)
      else c :: replaceWordAux wrong right fuel (some c) cs

/-- Replace every whole-word occurrence of `wrong` by `right`. -/
def replaceWord (s wrong right : String) : String :=
  String.mk (replaceWordAux wrong.toList right.toList s.toList.length
    Option.none s.toList)

/-- `_normalize_typos`, applied to already-lowercased text (the source
substitutes case-insensitively and every later consumer lowercases, so the
pipelines agree on lowercased input). -/
def normalizeTypos (s : String) : String :=
  typoFixes.foldl (fun acc f => replaceWord acc f.1 f.2) s

-- ---------------------------------------------------------------------
-- features/speech_acts.py : extractors, act/intent decision, analyze
-- ---------------------------------------------------------------------

/-- CANON_TYPES. -/
def canonTypes : List String := ["restaurant", "cafe", "bar"]

/-- `_extract_type`: first matching venue synonym pattern wins. -/
def extractType (t : String) : Option String :=
  (venuePatterns.find? (fun pr => pr.1.search t)).map (fun pr => pr.2)

/-- `_extract_neighborhood`: first matching alias wins. -/
def extractNeighborhood (t : String) : Option String :=
  (neighborhoodAliases.find? (fun pr => pr.1.search t)).map (fun pr => pr.2)

/-- Python `str.title()`: uppercase every letter that follows a non-letter,
lowercase the rest (ASCII view). -/
def pyTitleAux : Bool → List Char → List Char
  | _, [] => []
  | prevAlpha, c :: cs =>
      (if c.isAlpha then (if prevAlpha then c.toLower else c.toUpper) else c)
        :: pyTitleAux c.isAlpha cs

/-- Python `str.title()`. -/
def pyTitle (s : String) : String := String.mk (pyTitleAux false s.toList)

/-- `_extract_cuisine`: first matching cuisine pattern, title-cased. -/
def extractCuisine (t : String) : Option String :=
  (cuisinePatterns.find? (fun pr => pr.2.search t)).map (fun pr => pyTitle pr.1)

/-- The substrings whose plain containment makes a text "venue_like". -/
def venueLikeTokens : List String :=
  ["bar", "cafe", "restaurant", "coffee", "lunch", "dinner", "drinks"]

/-- `decide_act_and_intent` on text that is already stripped, lowercased and
(in the analyze pipeline) typo-normalized. -/
def decideActAndIntentLow (ul : String) : String × String × String :=
  let venue_type := extractType ul
  let venue_like := venue_type.isSome
    || venueLikeTokens.any (fun k => containsSub ul k)
  let db_like := dbHardPat.search ul
  let has_domain := db_like || venue_like
    || (openNowPat.search ul || nearPat.search ul)
  let is_question := questionSearch ul
  let is_request := orderPat.search ul || imperativeVerbsPat.atStart ul
  let is_affirm := affirmPat.search ul
  let is_deny := denyPat.search ul
  let pure_ack := fun (p : RE) =>
    p.search ul && !(is_question || is_request || has_domain)
      && (wsTokens ul).length ≤ 6
  let intent :=
    if db_like then "db_query"
    else if venue_like || openNowPat.search ul || nearPat.search ul then
      "food_search"
    else if pure_ack greetPat then "greet"
    else if pure_ack goodbyePat then "goodbye"
    else if pure_ack thanksPat then "thanks"
    else if pure_ack apologyPat then "apology"
    else if is_affirm then "affirm"
    else if is_deny then "deny"
    else if moodUnhappyPat.search ul || notGreatPat.search ul then
      "mood_unhappy"
    else if moodGreatPat.search ul then "mood_great"
    else if botChallengePat.search ul then "bot_challenge"
    else "generic"
  let act :=
    if is_question then ("DIRECTIVE", "ASK")
    else if is_request then ("DIRECTIVE", "REQUEST")
    else if is_affirm then ("CONSTATIVE", "CONFIRM")
    else if is_deny then ("CONSTATIVE", "DENY")
    else if pure_ack greetPat then ("ACKNOWLEDGMENT", "GREET")
    else if pure_ack thanksPat then ("ACKNOWLEDGMENT", "THANK")
    else if pure_ack apologyPat then ("ACKNOWLEDGMENT", "APOLOGIZE")
    else if pure_ack goodbyePat then ("ACKNOWLEDGMENT", "GOODBYE")
    else if planPat.search ul then ("COMMISSIVE", "PLAN")
    else if promisePat.search ul then ("COMMISSIVE", "PROMISE")
    else ("CONSTATIVE", "STATE")
  (act.1, act.2, intent)

/-- `decide_act_and_intent(utterance)` of the source: strips and lowercases
its argument itself. -/
def decide_act_and_intent (utterance : String) : String × String × String :=
  decideActAndIntentLow (pyLower (pyStrip utterance))

/-- The small-talk intents that make `analyze` return early. -/
def smallTalkEarlyIntents : List String :=
  ["greet", "goodbye", "affirm", "deny", "mood_great", "mood_unhappy",
   "bot_challenge", "thanks", "apology"]

/-- The tail of `analyze` after the limit slot: sort preference, anaphora
escalation from the remembered venue, and the final DB_HARD override. -/
def analyzeTail (ul : String) (state : DialogueState)
    (act_major intent : String) (slots : Slots) : String × String × Slots :=
  let slots :=
    if sortBestPat.search ul then slots.set "sort" (Val.str "best")
    else if sortCheapPat.search ul then slots.set "sort" (Val.str "cheap")
    else slots
  let step :=
    if intent = "generic"
        && (["there", "more", "another"].any (fun tok => containsSub ul tok))
        && state.last_entities.venue.isSome then
      match state.last_entities.venue with
      | some le =>
        let slots :=
          if truthy le.vtype && !(hasKey slots "type") then
            slots.set "type" le.vtype
          else slots
        let slots :=
          if truthy le.vneigh && !(hasKey slots "neighborhood") then
            slots.set "neighborhood" le.vneigh
          else slots
        let slots :=
          if truthy (pyGet state.slots "sort") && !(hasKey slots "sort") then
            slots.set "sort" (pyGet state.slots "sort")
          else slots
        ("food_search", slots)
      | Option.none => (intent, slots)
    else (intent, slots)
  let intent := if dbHardPat.search ul then "db_query" else step.1
  (act_major, intent, step.2)

/-- `analyze(text, state)`: classification plus slot extraction.  The
pipeline is case-insensitive throughout, so it is defined over
`normalizeTypos (pyLower (pyStrip text))` (see normalizeTypos).  The result
is in `Except` because the source raises `TypeError` on a "next N" limit:
`int(m.group(1) or m.group(2))` with both groups None. -/
def analyze (text : String) (state : DialogueState) :
    Except String (String × String × Slots) :=
  let ul := normalizeTypos (pyLower (pyStrip text))
  let slots : Slots := []
  let slots := if confirmPat.search ul then slots.set "confirm" (Val.bool true)
    else slots
  let slots := if cancelPat.search ul then slots.set "cancel" (Val.bool true)
    else slots
  let dec := decideActAndIntentLow ul
  let act_major := dec.1
  let act_subtype := dec.2.1
  let intent := dec.2.2
  let slots := slots.set "act_subtype" (Val.str act_subtype)
  if smallTalkEarlyIntents.contains intent then
    Except.ok (act_major, intent, slots)
  else
    let slots := match extractType ul with
      | some vt =>
          if canonTypes.contains vt then slots.set "type" (Val.str vt)
          else slots
      | Option.none => slots
    let slots := match extractNeighborhood ul with
      | some h => slots.set "neighborhood" (Val.str h)
      | Option.none => slots
    let slots := if nearPat.search ul then slots.set "near" (Val.str "HQ")
      else slots
    let slots := match extractCuisine ul with
      | some c => slots.set "cuisine" (Val.str c)
      | Option.none => slots
    let slots := if wifiPat.search ul then slots.set "wifi" (Val.bool true)
      else slots
    let slots := if outdoorPat.search ul then
      slots.set "outdoor" (Val.bool true) else slots
    let slots := if veggiePat.search ul then
      slots.set "veggie" (Val.bool true) else slots
    let slots := if alcoPat.search ul then
      slots.set "alcohol" (Val.bool true) else slots
    let slots := if resPat.search ul then
      slots.set "reservations" (Val.bool true) else slots
    let slots := if payPat.search ul then
      slots.set "payment" (Val.bool true) else slots
    let slots := if openNowPat.search ul then
      slots.set "open_now" (Val.bool true) else slots
    let slots := match priceMaxFind ul with
      | some n => slots.set "price_max" (Val.int n)
      | Option.none => slots
    let slots := match priceRangeFind ul with
      | some nm => (slots.set "price_min" (Val.int nm.1)).set "price_max"
          (Val.int nm.2)
      | Option.none => slots
    let slots := match ratingMinFind ul with
      | some q => slots.set "rating_min" (Val.float q)
      | Option.none => slots
    match limitFind ul with
    | some an =>
        if an.1 ≤ 1 then
          Except.ok (analyzeTail ul state act_major intent
            (slots.set "limit" (Val.int an.2)))
        else
          Except.error "TypeError: int() of None, LIMIT_PAT third group"
    | Option.none => Except.ok (analyzeTail ul state act_major intent slots)

-- ---------------------------------------------------------------------
-- features/context.py : operations
-- ---------------------------------------------------------------------

/-- Python `repr` of a scalar value as it appears inside `str((k, v))`
(values occurring in fingerprinted slots are plain words, so no escaping is
needed; a whole-number float prints with a trailing `.0` like Python). -/
def pyReprVal : Val → String
  | Val.str s => apoStr ++ s ++ apoStr
  | Val.int n => toString n
  | Val.bool b => if b then "True" else "False"
  | Val.float q => if q.den = 1 then toString q.num ++ ".0" else toString q
  | Val.none => "None"

/-- The salient keys of `_topic_fingerprint` (note that the source hashes
`slots.get("intent")`, not the `intent` argument, which is unused). -/
def fpKeys : List String :=
  ["intent", "type", "neighborhood", "place", "person", "date", "time"]

/-- `_topic_fingerprint(intent, slots)`: the blake2b digest is modelled by
its preimage `sig` string (digest equality coincides with sig equality,
hash collisions apart); the `intent` argument is unused, as in the source. -/
def topicFingerprint (_intent : String) (slots : Slots) : String :=
  String.intercalate "|" (fpKeys.map (fun k =>
    "(" ++ apoStr ++ k ++ apoStr ++ ", " ++ pyReprVal (pyGet slots k) ++ ")"))

/-- The ephemeral key set of `add_user_turn`. -/
def ephemeralKeys : List String := ["act_subtype", "confirm", "cancel"]

/-- The current-turn value is skipped by the durable merge when it is Python
`in (None, "", False)` — equality, not identity, so 0 and 0.0 also qualify. -/
def mergeSkips (v : Val) : Bool :=
  pyEq v Val.none || pyEq v (Val.str "") || pyEq v (Val.bool false)

/-- The durable-slot merge loop of `add_user_turn`: skip ephemeral keys and
empty-ish values, otherwise current turn wins. -/
def mergeDurable (old : Slots) (turn : Slots) : Slots :=
  turn.foldl (fun acc kv =>
    if ephemeralKeys.contains kv.1 then acc
    else if mergeSkips kv.2 then acc
    else acc.set kv.1 kv.2) old

/-- `add_user_turn`: append the Turn, merge durable slots, push the intent
onto the bounded window of 6. -/
def addUserTurn (s : DialogueState) (text : String) (act_major : String)
    (act_subtype : Val) (intent : String) (slots : Slots) (mood : String) :
    DialogueState :=
  let turn : Turn :=
    { role := "user", text := text, act_major := some act_major,
      act_subtype := act_subtype, intent := some intent, slots := slots,
      mood := some mood, tool_events := [] }
  { s with
    history := s.history ++ [turn],
    slots := mergeDurable s.slots slots,
    history_intents := takeLast 6 (s.history_intents ++ [intent]) }

/-- `add_assistant_turn`. -/
def addAssistantTurn (s : DialogueState) (text : String) (slots : Slots) :
    DialogueState :=
  let turn : Turn :=
    { role := "assistant", text := text, act_major := Option.none,
      act_subtype := Val.none, intent := Option.none, slots := slots,
      mood := Option.none, tool_events := [] }
  { s with history := s.history ++ [turn] }

/-- Append a tool event to the last turn of a nonempty history. -/
def appendEventToLast : List Turn → ToolEvent → List Turn
  | [], _ => []
  | [t], ev => [{ t with tool_events := t.tool_events ++ [ev] }]
  | t :: ts, ev => t :: appendEventToLast ts ev

/-- `attach_tool_event`: create a placeholder system turn when history is
empty, then attach to the latest turn. -/
def attachToolEvent (s : DialogueState) (ev : ToolEvent) : DialogueState :=
  let boot : Turn :=
    { role := "system", text := "boot", act_major := Option.none,
      act_subtype := Val.none, intent := Option.none, slots := [],
      mood := Option.none, tool_events := [] }
  let hist := if s.history.isEmpty then [boot] else s.history
  { s with history := appendEventToLast hist ev }

/-- `log_db_result`. -/
def logDbResult (s : DialogueState) (sql : String) (rows : List DbRow)
    (elapsed_ms : Int) (error : Option String) : DialogueState :=
  let ev : ToolEvent :=
    { source := "db", subtype := "select", request := sql,
      payload := ToolPayload.dbRows rows, count := rows.length,
      elapsed_ms := elapsed_ms,
      error := match error with | some e => e | Option.none => "" }
  attachToolEvent s ev

/-- `log_kg_result`: replace the KG row cache, attach the event, and roll
the dynamic facts list (last 5). -/
def logKgResult (s : DialogueState) (sparql : String) (bindings : List KgRow)
    (elapsed_ms : Int) (error : Option String) : DialogueState :=
  let s := { s with last_kg_rows := bindings }
  let ev : ToolEvent :=
    { source := "kg", subtype := "sparql", request := sparql,
      payload := ToolPayload.kgBindings bindings, count := bindings.length,
      elapsed_ms := elapsed_ms,
      error := match error with | some e => e | Option.none => "" }
  let s := attachToolEvent s ev
  { s with recent_facts_dyn :=
      takeLast 5 (s.recent_facts_dyn ++ [("kg", s.last_kg_rows.length)]) }

/-- `needs_onboarding()`. -/
def needsOnboarding (s : DialogueState) : Bool :=
  s.user_profile.privacy_mode == "ask" && !s.user_profile.verified
    && !s.asked_name_once

/-- `update_user_identity`: set profile fields, derive `verified` from the
staff id, force the onboarding flag when verified or anonymous, and rederive
tone/verbosity/price_band from the three-tier table. -/
def updateUserIdentity (s : DialogueState) (name : Option String)
    (staff_id : Option Int) (role : Option String) (role_level : Option Int)
    (department : Option String) (privacy_mode : String) : DialogueState :=
  let up := s.user_profile
  let newName := match name with
    | some n => if n = "" then up.name else some n
    | Option.none => up.name
  let newRole := match role with
    | some r => if r = "" then up.role else some r
    | Option.none => up.role
  let verified := match staff_id with
    | some n => n ≠ 0
    | Option.none => false
  let asked := if verified || privacy_mode = "anonymous" then true
    else s.asked_name_once
  let lvl : Int := match role_level with
    | some l => l
    | Option.none => 99
  let tvp : String × String × String :=
    if privacy_mode = "anonymous" || !verified then
      ("neutral", "normal", "mid")
    else if lvl ≤ 2 then ("formal", "brief", "premium")
    else if lvl ≤ 4 then ("neutral", "normal", "mid")
    else ("casual", "detailed", "budget")
  let up2 : UserProfile :=
    { up with name := newName, staff_id := staff_id, role := newRole,
              role_level := role_level, department := department,
              verified := verified, privacy_mode := privacy_mode,
              tone := tvp.1, verbosity := tvp.2.1, price_band := tvp.2.2 }
  { s with asked_name_once := asked, user_profile := up2 }

/-- The domain intent set of `update_topics_and_entities`. -/
def domainIntents : List String := ["food_search", "db_query", "place_info"]

/-- The domain-shaped slot keys of `update_topics_and_entities` (the source
spells out the same literal set twice: once for the `has_domain` test, once
for the clearing loop). -/
def domainKeys : List String :=
  ["type", "neighborhood", "cuisine", "near", "wifi", "outdoor", "veggie",
   "alcohol", "reservations", "payment", "open_now", "price_min", "price_max",
   "rating_min", "limit", "sort", "date", "time", "person", "place"]

/-- The entity-tracking block at the head of `update_topics_and_entities`:
remember person/place when truthy, and the venue descriptor when a truthy
type or neighborhood is present. -/
def updateEntities (ents : Entities) (slots : Slots) : Entities :=
  let e1 := if truthy (pyGet slots "person") then
      { ents with person := pyGet slots "person" } else ents
  let e2 := if truthy (pyGet slots "place") then
      { e1 with place := pyGet slots "place" } else e1
  let v : Venue :=
    { vtype := pyGet slots "type", vneigh := pyGet slots "neighborhood",
      vcuis := pyGet slots "cuisine" }
  if truthy (pyGet slots "type") || truthy (pyGet slots "neighborhood") then
    { e2 with venue := some v }
  else e2

/-- Is the turn topical (domain intent, or any domain-shaped key present)? -/
def topicalTurn (intent : String) (slots : Slots) : Bool :=
  domainIntents.contains intent || domainKeys.any (fun k => hasKey slots k)

/-- `shifted`: a prior fingerprint exists and differs from the new one. -/
def topicShifted (s : DialogueState) (newTopic : String) : Bool :=
  s.topic_id.isSome && (s.topic_id != some newTopic)

/-- `introduced_conflict`: a truthy type/neighborhood/cuisine value in the
slot map handed to update_topics_and_entities. -/
def introducedConflict (slots : Slots) : Bool :=
  truthy (pyGet slots "type") || truthy (pyGet slots "neighborhood")
    || truthy (pyGet slots "cuisine")

/-- The normal-topic-shift clearing: drop domain-shaped durable slots, empty
both KG caches, reset the next-expected hint. -/
def clearDomain (s : DialogueState) : DialogueState :=
  { s with slots := s.slots.filter (fun p => !(domainKeys.contains p.1)),
           last_kg_rows := [], kg_detail_cache := [],
           next_expected := Option.none }

/-- The state with only the remembered entities refreshed (the part of
update_topics_and_entities that runs on every call). -/
def updateTopicsEnt (s : DialogueState) (slots : Slots) : DialogueState :=
  { s with last_entities := updateEntities s.last_entities slots }

/-- See updateTopics: the branch picked on a topical turn whose fingerprint
shifted outside the place_info guard. -/
def updateTopicsClear (s : DialogueState) (intent : String) (slots : Slots) :
    DialogueState :=
  { (clearDomain (updateTopicsEnt s slots)) with
      topic_id := some (topicFingerprint intent slots) }

/-- `update_topics_and_entities(intent, slots)`: remember entities; a
non-topical turn changes nothing else; a topical turn whose fingerprint
shifted clears domain slots and caches through clearDomain — unless it is a
place_info turn introducing no conflicting venue slot (which preserves
them) — and the new fingerprint is always stored. -/
def updateTopics (s : DialogueState) (intent : String) (slots : Slots) :
    DialogueState :=
  if !(topicalTurn intent slots) then updateTopicsEnt s slots
  else if topicShifted (updateTopicsEnt s slots)
        (topicFingerprint intent slots)
      && !(decide (intent = "place_info") && !(introducedConflict slots)) then
    updateTopicsClear s intent slots
  else { (updateTopicsEnt s slots) with
      topic_id := some (topicFingerprint intent slots) }

/-- The third-person-pronoun branch of `resolve_references`: borrow the
remembered person when the current person value is falsy. -/
def resolvePerson (s : DialogueState) (t : String) (slots : Slots) : Slots :=
  if (containsSub t "him" || containsSub t "her" || containsSub t "them")
      && !(truthy (pyGet slots "person")) then
    if truthy s.last_entities.person then
      slots.set "person" s.last_entities.person
    else slots
  else slots

/-- The remembered venue's neighborhood (None when no venue is remembered). -/
def lastVenueNeigh (s : DialogueState) : Val :=
  match s.last_entities.venue with
  | some v => v.vneigh
  | Option.none => Val.none

/-- The remembered venue's type (None when no venue is remembered). -/
def lastVenueType (s : DialogueState) : Val :=
  match s.last_entities.venue with
  | some v => v.vtype
  | Option.none => Val.none

/-- The body of the locative branch once its guard holds. -/
def resolvePlaceHit (s : DialogueState) (slots : Slots) : Slots :=
  let slots2 := if truthy (lastVenueNeigh s) then
      slots.set "neighborhood" (lastVenueNeigh s)
    else slots
  if truthy (lastVenueType s) && !(truthy (pyGet slots2 "type")) then
    slots2.set "type" (lastVenueType s)
  else slots2

/-- The locative-deictic branch of `resolve_references`: borrow the
remembered venue's neighborhood (and type, when the current type value is
falsy) when both place and neighborhood values are falsy. -/
def resolvePlace (s : DialogueState) (t : String) (slots : Slots) : Slots :=
  if (containsSub t "there" || containsSub t "that place"
      || containsSub t "it")
      && !(truthy (pyGet slots "place"))
      && !(truthy (pyGet slots "neighborhood")) then
    resolvePlaceHit s slots
  else slots

/-- `resolve_references(text, slots)`: the pronoun branch, then the
locative branch, over the lowercased raw text.  The source mutates and
returns the slot dict and never writes to the state; here the state is
read-only by type. -/
def resolveReferences (s : DialogueState) (text : String) (slots : Slots) :
    Slots :=
  resolvePlace s (pyLower text) (resolvePerson s (pyLower text) slots)

-- ---------------------------------------------------------------------
-- features/repairs.py : self-repair input cleanup
-- ---------------------------------------------------------------------

/-- HEDGES, in source order:
`\buh+\b`, `\bum+\b`, `\berm+\b`, `\bwell[, ]\b`, `\bok(ay)?,?\b`,
`\bsort of\b`, `\bkinda\b`, `\bperhaps\b`, `\bmaybe\b`, `\bi guess\b`. -/
def hedgesPat : RE :=
  RE.alts [
    RE.word (RE.cat (RE.lit "u") (RE.many1 (fun c => c == 'h'))),
    RE.word (RE.cat (RE.lit "u") (RE.many1 (fun c => c == 'm'))),
    RE.word (RE.cat (RE.lit "er") (RE.many1 (fun c => c == 'm'))),
    RE.cat RE.wb (RE.cat (RE.lit "well")
      (RE.cat (RE.one (fun c => c == ',' || c == ' ')) RE.wb)),
    RE.cat RE.wb (RE.cat (RE.lit "ok")
      (RE.cat (RE.opt (RE.lit "ay")) (RE.cat (RE.opt (RE.lit ",")) RE.wb))),
    RE.word (RE.lit "sort of"), RE.word (RE.lit "kinda"),
    RE.word (RE.lit "perhaps"), RE.word (RE.lit "maybe"),
    RE.word (RE.lit "i guess")]

/-- REPAIR_LEADS = `\bi mean\b | \bsorry(,)? i meant\b | \bto clarify\b | \bactually\b`. -/
def repairLeadPat : RE :=
  RE.alts [
    RE.word (RE.lit "i mean"),
    RE.cat RE.wb (RE.cat (RE.lit "sorry")
      (RE.cat (RE.opt (RE.lit ",")) (RE.cat (RE.lit " i meant") RE.wb))),
    RE.word (RE.lit "to clarify"),
    RE.word (RE.lit "actually")]

/-- End of the leftmost match of `r` in `s` (Python `m.end()` of
`re.search`), using the first candidate in backtracking order. -/
def reSearchEnd (r : RE) (s : String) : Option Nat :=
  let cs := s.toList
  ((List.range (cs.length + 1)).firstM (fun i => (RE.ends r cs i).head?))

/-- `pattern.sub(" ", s)`: replace every non-overlapping match (all the
patterns used here consume at least one character) by a single space. -/
def reSubSpaceAux (r : RE) (cs : List Char) : Nat → Nat → List Char
  | 0, i => cs.drop i
  | fuel + 1, i =>
      match cs.get? i with
      | Option.none => []
      | some c =>
          match (RE.ends r cs i).head? with
          | some j =>
              if i < j then ' ' :: reSubSpaceAux r cs fuel j
              else c :: reSubSpaceAux r cs fuel (i + 1)
          | Option.none => c :: reSubSpaceAux r cs fuel (i + 1)

/-- `pattern.sub(" ", s)` driver. -/
def reSubSpace (r : RE) (s : String) : String :=
  String.mk (reSubSpaceAux r s.toList s.toList.length 0)

/-- `MULTI_SPACE.sub(" ", s)`: collapse whitespace runs to single spaces. -/
def collapseWs (s : String) : String := reSubSpace ws1 s

/-- `apply_self_repair(text)` on lowercased text (the cleaned text is only
consumed lowercased): keep what follows a repair lead (unless the text says
"never mind"), strip hedges, collapse whitespace.  The `changed` flag of
the source is discarded where the router discards it. -/
def applySelfRepair (t : String) : String :=
  if t = "" then t
  else
    let t1 := match reSearchEnd repairLeadPat t with
      | some e =>
          if containsSub t "never mind" then t
          else String.mk (t.toList.drop e)
      | Option.none => t
    pyStrip (collapseWs (reSubSpace hedgesPat t1))

-- ---------------------------------------------------------------------
-- core/router.py : name capture and helpers
-- ---------------------------------------------------------------------

/-- ASCII `[A-Za-z]`. -/
def isAzAZ (c : Char) : Bool :=
  ('a' ≤ c && c ≤ 'z') || ('A' ≤ c && c ≤ 'Z')

/-- ASCII `[a-z]`. -/
def isLowAz (c : Char) : Bool := 'a' ≤ c && c ≤ 'z'

/-- ASCII `[A-Z]`. -/
def isUpAZ (c : Char) : Bool := 'A' ≤ c && c ≤ 'Z'

/-- Candidate ends of one `_FLEX_NAME_WORD` at `i`:
`[A-Za-z]\.` first, then `[A-Za-z][a-z]+(?:[-'][A-Za-z][a-z]+)*` with the
star unrolled greedily (longest continuation first). -/
def flexTailEnds (cs : List Char) : Nat → Nat → List Nat
  | 0, _ => []
  | fuel + 1, e =>
      match cs.get? e, cs.get? (e + 1) with
      | some sep, some a =>
          if (sep == '-' || sep == apoChar) && isAzAZ a then
            let r := runLen isLowAz (cs.drop (e + 2))
            if r = 0 then []
            else flexTailEnds cs fuel (e + 2 + r) ++ [e + 2 + r]
          else []
      | _, _ => []

/-- Candidate ends of `_FLEX_NAME_WORD` (see flexTailEnds). -/
def flexWordEnds (cs : List Char) (i : Nat) : List Nat :=
  let alt1 := match cs.get? i, cs.get? (i + 1) with
    | some a, some dot => if isAzAZ a && dot == '.' then [i + 2] else []
    | _, _ => []
  let alt2 := match cs.get? i with
    | some a =>
        if isAzAZ a then
          let r := runLen isLowAz (cs.drop (i + 1))
          if r = 0 then []
          else flexTailEnds cs cs.length (i + 1 + r) ++ [i + 1 + r]
        else []
    | Option.none => []
  alt1 ++ alt2

/-- Candidate ends of `(?:\s+WORD){1,upTo}` from `i`, greedy-first. -/
def moreWordsEnds (wordEnds : List Char → Nat → List Nat) (cs : List Char) :
    Nat → Nat → List Nat
  | 0, _ => []
  | fuel + 1, i =>
      let wsr := wsRunAt cs i
      if wsr = 0 then []
      else (wordEnds cs (i + wsr)).flatMap (fun e =>
        moreWordsEnds wordEnds cs fuel e ++ [e])

/-- Candidate ends of `WORD(?:\s+WORD){1,3}` from `i`, greedy-first. -/
def nameGroupEnds (wordEnds : List Char → Nat → List Nat) (cs : List Char)
    (i : Nat) : List Nat :=
  (wordEnds cs i).flatMap (fun e => moreWordsEnds wordEnds cs 3 e)

/-- Does the lowercased literal match at `i` of the lowercased characters? -/
def subAtCI (low : List Char) (lit : String) (i : Nat) : Bool :=
  subAt low lit.toList i

/-- One lead-in matcher: given the lowercased and original characters and a
position with a `\b`, return the start of the name group. -/
abbrev LeadFn := List Char → Nat → Option Nat

/-- `\bmy name is\s+`. -/
def leadMyNameIs : LeadFn := fun low i =>
  if subAtCI low "my name is" i then
    let w := wsRunAt low (i + 10)
    if w = 0 then Option.none else some (i + 10 + w)
  else Option.none

/-- `\bi am\s+`. -/
def leadIAm : LeadFn := fun low i =>
  if subAtCI low "i am" i then
    let w := wsRunAt low (i + 4)
    if w = 0 then Option.none else some (i + 4 + w)
  else Option.none

/-- `\bi['’]m\s+`. -/
def leadImShort : LeadFn := fun low i =>
  match low.get? (i + 1) with
  | some q =>
      if subAtCI low "i" i && (q == apoChar || q == Char.ofNat 8217)
          && subAtCI low "m" (i + 2) then
        let w := wsRunAt low (i + 3)
        if w = 0 then Option.none else some (i + 3 + w)
      else Option.none
  | Option.none => Option.none

/-- `\bthis is\s+`. -/
def leadThisIs : LeadFn := fun low i =>
  if subAtCI low "this is" i then
    let w := wsRunAt low (i + 7)
    if w = 0 then Option.none else some (i + 7 + w)
  else Option.none

/-- `\bcall me\s+`. -/
def leadCallMe : LeadFn := fun low i =>
  if subAtCI low "call me" i then
    let w := wsRunAt low (i + 7)
    if w = 0 then Option.none else some (i + 7 + w)
  else Option.none

/-- `\bfull name\s*(?:is|:)\s*`. -/
def leadFullName : LeadFn := fun low i =>
  if subAtCI low "full name" i then
    let j := i + 9 + wsRunAt low (i + 9)
    if subAtCI low "is" j then some (j + 2 + wsRunAt low (j + 2))
    else if subAtCI low ":" j then some (j + 1 + wsRunAt low (j + 1))
    else Option.none
  else Option.none

/-- `\bname\s*[:\-]\s*`. -/
def leadNameColon : LeadFn := fun low i =>
  if subAtCI low "name" i then
    let j := i + 4 + wsRunAt low (i + 4)
    match low.get? j with
    | some c =>
        if c == ':' || c == '-' then some (j + 1 + wsRunAt low (j + 1))
        else Option.none
    | Option.none => Option.none
  else Option.none

/-- _NAME_PATTERNS, in source order. -/
def leadFns : List LeadFn :=
  [leadMyNameIs, leadIAm, leadImShort, leadThisIs, leadCallMe, leadFullName,
   leadNameColon]

/-- Find the leftmost full match of `\b LEAD GROUP \b` and return the
captured group text. -/
def leadPatternFind (lead : LeadFn) (text : String) : Option String :=
  let cs := text.toList
  let low := cs.map Char.toLower
  ((List.range (cs.length + 1)).firstM (fun i =>
    if wbAt cs i then
      match lead low i with
      | some j =>
          ((nameGroupEnds flexWordEnds cs j).firstM (fun g =>
            if wbAt cs g then some (String.mk ((cs.drop j).take (g - j)))
            else Option.none))
      | Option.none => Option.none
    else Option.none))

/-- A namey token of `_looks_like_name`:
`[A-Z]\.` or `[A-Z][a-z]+(?:[-'][A-Z][a-z]+)*` (full match). -/
def nameyTail (cs : List Char) : Nat → Nat → Bool
  | 0, _ => false
  | fuel + 1, e =>
      if e = cs.length then true
      else
        match cs.get? e, cs.get? (e + 1) with
        | some sep, some a =>
            if (sep == '-' || sep == apoChar) && isUpAZ a then
              let r := runLen isLowAz (cs.drop (e + 2))
              if r = 0 then false else nameyTail cs fuel (e + 2 + r)
            else false
        | _, _ => false

/-- Is a single token namey (see nameyTail)? -/
def tokenIsNamey (t : String) : Bool :=
  let cs := t.toList
  (match cs with
   | [a, dot] => isUpAZ a && dot == '.'
   | _ => false)
  || (match cs.head? with
      | some a =>
          if isUpAZ a then
            let r := runLen isLowAz (cs.drop 1)
            if r = 0 then false else nameyTail cs (cs.length + 1) (1 + r)
          else false
      | Option.none => false)

/-- `_looks_like_name`: at least one whitespace token is namey. -/
def looksLikeName (name : String) : Bool :=
  (wsTokens (pyStrip name)).any tokenIsNamey

/-- Python `tok.strip(",.;:!?")`. -/
def stripPunct (t : String) : String :=
  let punct := fun (c : Char) =>
    c == ',' || c == '.' || c == ';' || c == ':' || c == '!' || c == '?'
  String.mk (((t.toList.dropWhile punct).reverse.dropWhile punct).reverse)

/-- Is the token a single initial with a period (`X.`)? -/
def isInitialDot (t : String) : Bool :=
  match t.toList with
  | [a, dot] => a.isAlpha && dot == '.'
  | _ => false

/-- `cap_token` base case: no dash or apostrophe inside. -/
def capTokenBase (t : String) : String :=
  if t = "" then t
  else if isInitialDot t then
    match t.toList.head? with
    | some a => String.mk [a.toUpper, '.']
    | Option.none => t
  else
    match t.toList with
    | [] => t
    | c :: rest => String.mk (c.toUpper :: rest.map Char.toLower)

/-- Python `str.split(sep)` for a one-character separator (keeps empties). -/
def splitCharAux (sep : Char) : List Char → List Char → List (List Char)
  | acc, [] => [acc.reverse]
  | acc, c :: cs =>
      if c == sep then acc.reverse :: splitCharAux sep [] cs
      else splitCharAux sep (c :: acc) cs

/-- Python `str.split(sep)` driver. -/
def splitOnChar (sep : Char) (s : String) : List String :=
  (splitCharAux sep [] s.toList).map String.mk

/-- `cap_token` after the dash split: handle apostrophe pieces. -/
def capTokenAp (t : String) : String :=
  if t = "" then t
  else if isInitialDot t then capTokenBase t
  else if containsSub t apoStr then
    String.intercalate apoStr ((splitOnChar apoChar t).map capTokenBase)
  else capTokenBase t

/-- `cap_token`: title-case a name token, preserving hyphenated and
apostrophed sub-tokens and single-letter initials. -/
def capToken (t : String) : String :=
  if t = "" then t
  else if isInitialDot t then capTokenBase t
  else if containsSub t "-" then
    String.intercalate "-" ((splitOnChar '-' t).map capTokenAp)
  else capTokenAp t

/-- `_normalize_name`. -/
def normalizeName (s : String) : String :=
  let parts := (wsTokens (pyStrip s)).map stripPunct
  String.intercalate " " ((parts.filter (fun p => p ≠ "")).map capToken)

/-- Candidate ends of one `_CAP_NAME_WORD` at `i` (the case-sensitive
fallback variant: `[A-Z]\.` or `[A-Z][a-z]+(?:[-'][A-Z][a-z]+)*`). -/
def capTailEnds (cs : List Char) : Nat → Nat → List Nat
  | 0, _ => []
  | fuel + 1, e =>
      match cs.get? e, cs.get? (e + 1) with
      | some sep, some a =>
          if (sep == '-' || sep == apoChar) && isUpAZ a then
            let r := runLen isLowAz (cs.drop (e + 2))
            if r = 0 then []
            else capTailEnds cs fuel (e + 2 + r) ++ [e + 2 + r]
          else []
      | _, _ => []

/-- Candidate ends of `_CAP_NAME_WORD` (see capTailEnds). -/
def capWordEnds (cs : List Char) (i : Nat) : List Nat :=
  let alt1 := match cs.get? i, cs.get? (i + 1) with
    | some a, some dot => if isUpAZ a && dot == '.' then [i + 2] else []
    | _, _ => []
  let alt2 := match cs.get? i with
    | some a =>
        if isUpAZ a then
          let r := runLen isLowAz (cs.drop (i + 1))
          if r = 0 then []
          else capTailEnds cs cs.length (i + 1 + r) ++ [i + 1 + r]
        else []
    | Option.none => []
  alt1 ++ alt2

/-- `_FALLBACK_TWO_TOKENS` = `^CAP_GROUP$` on the stripped text. -/
def fallbackTwoTokens (text : String) : Option String :=
  let cs := (pyStrip text).toList
  ((nameGroupEnds capWordEnds cs 0).firstM (fun g =>
    if g = cs.length then some (String.mk cs) else Option.none))

/-- `_FALLBACK_LEADING_NAME` = `^CAP_GROUP\s+(?:speaking|here)\b` on the
stripped text. -/
def fallbackLeadingName (text : String) : Option String :=
  let cs := (pyStrip text).toList
  ((nameGroupEnds capWordEnds cs 0).firstM (fun g =>
    let w := wsRunAt cs g
    if w = 0 then Option.none
    else if (subAt cs "speaking".toList (g + w) && !(wAt cs (g + w + 8)))
        || (subAt cs "here".toList (g + w) && !(wAt cs (g + w + 4))) then
      some (String.mk (cs.take g))
    else Option.none))

/-- `_extract_full_name`: lead-in patterns (validated by looksLikeName),
then the two case-sensitive fallbacks. -/
def extractFullName (text : String) : Option String :=
  if text = "" then Option.none
  else
    match leadFns.firstM (fun lead =>
        match leadPatternFind lead text with
        | some cand =>
            let c := pyStrip cand
            if looksLikeName c then some (normalizeName c) else Option.none
        | Option.none => Option.none) with
    | some r => some r
    | Option.none =>
        match fallbackTwoTokens text with
        | some g => some (normalizeName g)
        | Option.none =>
            match fallbackLeadingName text with
            | some g => some (normalizeName g)
            | Option.none => Option.none

/-- `_mentions_anonymous`. -/
def mentionsAnonymous (text : String) : Bool :=
  let t := pyLower text
  ["stay anonymous", "skip name",
   "don" ++ apoStr ++ "t save my name", "be anonymous",
   "anonymous"].any (fun k => containsSub t k)

-- ---------------------------------------------------------------------
-- core/router.py : KG-cache detail lookup and the router
-- ---------------------------------------------------------------------

/-- `_DETAIL_PAT` = `\b(?:more info|details?|tell me more|what about)\b`. -/
def detailPat : RE :=
  RE.word (RE.alts [RE.lit "more info", RE.plural "detail",
    RE.lit "tell me more", RE.lit "what about"])

/-- `_NUM_IN_LABEL` = `\b(\d{1,5})\b`: the first standalone 1–5 digit
number, as a string. -/
def numInLabel (s : String) : Option String :=
  let cs := s.toList
  ((List.range (cs.length + 1)).firstM (fun i =>
    if wbAt cs i then
      let d := digitRunAt cs i
      if 1 ≤ d && d ≤ 5 then some (String.mk ((cs.drop i).take d))
      else Option.none
    else Option.none))

/-- `re.split(r"\W+", t)` keeping nonempty pieces: the maximal word-character
runs of `t`. -/
def wordSplitAux : Option (List Char) → List Char → List (List Char)
  | acc, [] => (match acc with | some w => [w.reverse] | Option.none => [])
  | acc, c :: cs =>
      if isWordChar c then
        wordSplitAux (some (c :: (match acc with
          | some w => w
          | Option.none => []))) cs
      else
        (match acc with | some w => [w.reverse] | Option.none => [])
          ++ wordSplitAux Option.none cs

/-- Word tokens of a text (see wordSplitAux). -/
def wordSplit (s : String) : List String :=
  (wordSplitAux Option.none s.toList).map String.mk

/-- `(b.get(k) or {}).get("value")` of a binding row (the value-dict wrapper
is collapsed in `KgRow`). -/
def kgRowGet (b : KgRow) (k : String) : Option String :=
  (b.find? (fun p => p.1 == k)).map (fun p => p.2)

/-- First truthy (non-None, nonempty) string of an `or`-chain. -/
def firstTruthyStr (l : List (Option String)) : Option String :=
  l.firstM (fun o => match o with
    | some s => if s ≠ "" then some s else Option.none
    | Option.none => Option.none)

/-- The row-label of `_try_answer_from_kg_cache`:
`(get("label") or get("name") or get("place") or "").strip()`. -/
def kgRowLabel (b : KgRow) : String :=
  match firstTruthyStr [kgRowGet b "label", kgRowGet b "name",
      kgRowGet b "place"] with
  | some s => pyStrip s
  | Option.none => ""

/-- Is every character of the token alphabetic (`str.isalpha`, tokens here
are nonempty)? -/
def strIsAlpha (w : String) : Bool :=
  w ≠ "" && w.toList.all Char.isAlpha

/-- The row-selection loop of `_try_answer_from_kg_cache`: a number match
breaks immediately; a token-containment match records the row and keeps
scanning (last such row wins). -/
def kgBestRow (tnum : Option String) (tokens : List String) :
    List KgRow → Option KgRow → Option KgRow
  | [], best => best
  | b :: rest, best =>
      let label := kgRowLabel b
      if label = "" then kgBestRow tnum tokens rest best
      else
        let labLow := pyLower label
        match tnum with
        | some n =>
            if containsSub labLow n then some b
            else
              if !tokens.isEmpty && tokens.all (fun w =>
                  if strIsAlpha w && w.length > 3 then containsSub labLow w
                  else true) then
                kgBestRow tnum tokens rest (some b)
              else kgBestRow tnum tokens rest best
        | Option.none =>
            if !tokens.isEmpty && tokens.all (fun w =>
                if strIsAlpha w && w.length > 3 then containsSub labLow w
                else true) then
              kgBestRow tnum tokens rest (some b)
            else kgBestRow tnum tokens rest best

/-- Render the single-row detail answer of `_try_answer_from_kg_cache`. -/
def kgDetailLine (best : KgRow) : String :=
  let getb := kgRowGet best
  let label := firstTruthyStr [getb "label", getb "name", getb "place"]
  let addr := firstTruthyStr [getb "address"]
  let price := firstTruthyStr [getb "price", getb "averagePricePerPerson"]
  let rate := firstTruthyStr [getb "rating", getb "avgRating"]
  let cuis := firstTruthyStr [getb "cuisine"]
  let parts := ([label, addr,
    price.map (fun p => "€" ++ p),
    rate.map (fun r => "rating " ++ r),
    cuis.map (fun c => "cuisine " ++ c)].filterMap id).filter (fun p => p ≠ "")
  let line := if parts.isEmpty then
      "• " ++ (match label with | some l => l | Option.none => "(item)")
    else "• " ++ String.intercalate " — " parts
  "Results:" ++ String.singleton (Char.ofNat 10) ++ line

/-- `_try_answer_from_kg_cache(user_text, rows)` (text passed lowercased;
the source lowercases internally and matches case-insensitively). -/
def tryAnswerFromKgCache (t : String) (rows : List KgRow) : Option String :=
  match rows with
  | [] => Option.none
  | first :: _ =>
      let tnum := numInLabel t
      let tokens := wordSplit t
      let best := kgBestRow tnum tokens rows Option.none
      let best := match best with
        | some b => some b
        | Option.none => if detailPat.search t then some first else Option.none
      best.map kgDetailLine

/-- KG_INTENTS. -/
def kgIntents : List String := ["food_search", "place_info"]

/-- DB_INTENTS. -/
def dbIntents : List String := ["check_tasks", "free_slots", "db_query"]

/-- SMALLTALK_INTENTS (the onboarding gate's skip set). -/
def smalltalkSkipIntents : List String := ["greet", "thanks", "apology", "goodbye"]

/-- The domain intents reused for identity-only turns (router step 1). -/
def lastDomainIntents : List String :=
  ["food_search", "place_info", "db_query", "check_tasks", "free_slots"]

/-- The control-flag keys excluded from the router's durable merge. -/
def routerEphemeral : List String := ["confirm", "cancel", "act_subtype"]

/-- Python set membership of a slot value against a set of strings. -/
def valInStrs (v : Val) (ss : List String) : Bool :=
  ss.any (fun s => pyEq v (Val.str s))

/-- Python truthiness of `state.pending_action` (None and the empty dict
are falsy). -/
def pendingTruthy (s : DialogueState) : Bool :=
  match s.pending_action with
  | some l => !l.isEmpty
  | Option.none => false

/-- A staff directory record, as returned by the out-of-scope identity
lookup collaborator (dict keys id/name/role/role_level/department). -/
structure StaffRec where
  sid : Option Int
  sname : Option String
  srole : Option String
  slevel : Option Int
  sdept : Option String
deriving DecidableEq, Repr

/-- The knowledge-graph collaborator's reply: summary plus the data it
reports back through `log_kg_result` (§6 contract). -/
structure KgReply where
  summary : Option String
  sparql : String
  bindings : List KgRow
  ms : Int
  err : Option String

/-- The database collaborator's reply: summary plus the data it reports back
through `log_db_result`. -/
structure DbReply where
  summary : Option String
  sql : String
  rows : List DbRow
  ms : Int
  err : Option String

/-- The external collaborators of the router (out-of-scope per the spec):
staff-identity lookup, knowledge-graph backend, database backend, and the
sentiment helper.  Data-source collaborators log through the state API,
modelled by the router applying log_kg_result / log_db_result to the
returned reply. -/
structure Collab where
  staffLookup : String → Option StaffRec
  kgAnswer : String → Slots → KgReply
  dbAnswer : String → Slots → DbReply
  moodOf : String → String

/-- How a router invocation answered. -/
inductive Resp where
  | onboarding
  | quickAck
  | cancelAck
  | confirmAck
  | staffGate
  | llm
deriving DecidableEq, Repr

/-- Result of one router invocation: the updated state, the kind of
response, and whether each data-source collaborator was invoked. -/
structure RouteResult where
  state : DialogueState
  resp : Resp
  calledKG : Bool
  calledDB : Bool

/-- Python `bool(staff.get("id"))`. -/
def idTruthy (o : Option Int) : Bool :=
  match o with
  | some n => n ≠ 0
  | Option.none => false

/-- Router stage 1a: deterministic name capture and DB-backed verification.
Returns the updated state and `just_verified`. -/
def routeIdentity (co : Collab) (text : String) (state : DialogueState) :
    DialogueState × Bool :=
  match extractFullName text with
  | some nm =>
      if state.db_enabled then
        match co.staffLookup nm with
        | some st =>
            (updateUserIdentity state
              (some (match st.sname with | some n => n | Option.none => nm))
              st.sid st.srole st.slevel st.sdept
              (if idTruthy st.sid then "identified"
               else state.user_profile.privacy_mode),
             idTruthy st.sid)
        | Option.none =>
            (updateUserIdentity state (some nm) Option.none Option.none
              Option.none Option.none state.user_profile.privacy_mode, false)
      else (state, false)
  | Option.none => (state, false)

/-- The router's durable-slot merge (step 2): durable memory without control
flags, overlaid by the turn's non-empty, non-control slots. -/
def routerMerge (durable : Slots) (turn : Slots) : Slots :=
  let durable_mem := durable.filter (fun p => !(routerEphemeral.contains p.1))
  turn.foldl (fun acc kv =>
    if !(routerEphemeral.contains kv.1) && !(mergeSkips kv.2) then
      acc.set kv.1 kv.2
    else acc) durable_mem

/-- Router stage 1a as a state transform (the `just_verified` flag feeds
only the composed etiquette strings, which are outside the modelled
result). -/
def routeSt1 (co : Collab) (text : String) (s : DialogueState) :
    DialogueState :=
  (routeIdentity co text s).1

/-- Router step 1: the effective intent — reuse the last domain intent on
identity-only generic turns. -/
def routeEffective (co : Collab) (text : String) (s : DialogueState)
    (intent : String) : String :=
  match ((routeSt1 co text s).history_intents.reverse).find? (fun i =>
      lastDomainIntents.contains i) with
  | some p =>
      if intent = "generic"
          && ((extractFullName text).isSome || mentionsAnonymous text) then p
      else intent
  | Option.none => intent

/-- Router step 2: the merged slot map for this invocation. -/
def routeMerged (co : Collab) (text : String) (s : DialogueState)
    (sl : Slots) : Slots :=
  routerMerge (routeSt1 co text s).slots sl

/-- The state after the unconditional stages of `route_request`: identity
capture, topic/entity bookkeeping with the effective values, and the user
turn appended (original intent and raw slots recorded). -/
def routeSt3 (co : Collab) (text tcls : String) (s : DialogueState)
    (am intent : String) (sl : Slots) : DialogueState :=
  addUserTurn
    (updateTopics (routeSt1 co text s) (routeEffective co text s intent)
      (routeMerged co text s sl))
    text am (pyGet sl "act_subtype") intent sl (co.moodOf tcls)

/-- Step 3d, first half: the cached detail answer, when the text asks for
detail and the KG row cache is nonempty. -/
def routeCached (st3 : DialogueState) (text_low : String) : Option String :=
  if detailPat.search text_low && !st3.last_kg_rows.isEmpty then
    tryAnswerFromKgCache text_low st3.last_kg_rows
  else Option.none

/-- Step 3d, knowledge graph: when no cached answer was produced and the
effective intent is KG-backed, consult the KG collaborator, which reports
back through log_kg_result (§6 contract).  Returns (state, invoked?). -/
def routeKgStep (co : Collab) (text : String) (st3 : DialogueState)
    (eff : String) (merged : Slots) : DialogueState × Bool :=
  match routeCached st3 (pyLower text) with
  | some _ => (st3, false)
  | Option.none =>
      if kgIntents.contains eff then
        let r := co.kgAnswer text merged
        (logKgResult st3 r.sparql r.bindings r.ms r.err, true)
      else (st3, false)

/-- Step 3d, database: when the effective intent is DB-backed and the
database is enabled, consult the DB collaborator, which reports back
through log_db_result.  Returns (state, invoked?). -/
def routeDbStep (co : Collab) (text : String) (st : DialogueState)
    (eff : String) (merged : Slots) : DialogueState × Bool :=
  if dbIntents.contains eff && st.db_enabled then
    let r := co.dbAnswer text merged
    (logDbResult st r.sql r.rows r.ms r.err, true)
  else (st, false)

/-- Steps 3d–4 of `route_request`: KG cache, then KG collaborator, then DB
collaborator, then the hand-off to the streaming LLM collaborator.  The
composed system-message strings are pure string building over read-only
views and are outside the modelled result. -/
def routeDispatch (co : Collab) (text : String) (st3 : DialogueState)
    (eff : String) (merged : Slots) : RouteResult :=
  { state := (routeDbStep co text
        (routeKgStep co text st3 eff merged).1 eff merged).1,
    resp := Resp.llm,
    calledKG := (routeKgStep co text st3 eff merged).2,
    calledDB := (routeDbStep co text
        (routeKgStep co text st3 eff merged).1 eff merged).2 }

/-- The body of `route_request` after classification and reference
resolution: the unconditional state updates (routeSt3), then the gate
chain in source order — onboarding, quick acknowledgments, cancellation,
confirmation, the anonymous staff gate — and finally the data-source
dispatch. -/
def routeCore (co : Collab) (text tcls : String) (s : DialogueState)
    (am intent : String) (sl : Slots) : RouteResult :=
  if needsOnboarding (routeSt3 co text tcls s am intent sl)
      && !(smalltalkSkipIntents.contains intent) then
    { state := { (routeSt3 co text tcls s am intent sl) with
        asked_name_once := true },
      resp := Resp.onboarding, calledKG := false, calledDB := false }
  else if valInStrs (pyGet sl "act_subtype")
      ["GREET", "THANK", "GOODBYE", "APOLOGIZE"] then
    { state := routeSt3 co text tcls s am intent sl, resp := Resp.quickAck,
      calledKG := false, calledDB := false }
  else if truthy (pyGet sl "cancel") then
    { state := { (routeSt3 co text tcls s am intent sl) with
        pending_action := Option.none },
      resp := Resp.cancelAck, calledKG := false, calledDB := false }
  else if truthy (pyGet sl "confirm")
      && pendingTruthy (routeSt3 co text tcls s am intent sl) then
    { state := { (routeSt3 co text tcls s am intent sl) with
        pending_action := Option.none },
      resp := Resp.confirmAck, calledKG := false, calledDB := false }
  else if (routeSt3 co text tcls s am intent sl).user_profile.privacy_mode
        == "anonymous"
      && (containsSub (pyLower text) "staff"
        || containsSub (pyLower text) "employee")
      && dbIntents.contains (routeEffective co text s intent) then
    { state := routeSt3 co text tcls s am intent sl, resp := Resp.staffGate,
      calledKG := false, calledDB := false }
  else
    routeDispatch co text (routeSt3 co text tcls s am intent sl)
      (routeEffective co text s intent) (routeMerged co text s sl)

/-- The text handed to the extraction stage: the self-repair-cleaned text
when nonempty, else the raw text (case dropped, as the whole classification
pipeline is case-insensitive). -/
def routeTcls (text : String) : String :=
  if applySelfRepair (pyLower text) ≠ "" then applySelfRepair (pyLower text)
  else pyLower text

/-- `route_request`, reduced to the latest user text (`_latest_user`) and
the state handle: self-repair, classification, reference resolution, then
routeCore.  The `Except` propagates the extraction-stage TypeError. -/
def route (co : Collab) (text : String) (state : DialogueState) :
    Except String RouteResult :=
  match analyze (routeTcls text) state with
  | Except.error e => Except.error e
  | Except.ok a =>
      Except.ok (routeCore co text (routeTcls text) state a.1 a.2.1
        (resolveReferences state text a.2.2))

/-- A collaborator instantiation whose data sources return nothing (used by
concrete runs; which collaborators are invoked is recorded regardless). -/
def trivCollab : Collab :=
  { staffLookup := fun _ => Option.none,
    kgAnswer := fun _ _ =>
      { summary := Option.none, sparql := "", bindings := [], ms := 0,
        err := Option.none },
    dbAnswer := fun _ _ =>
      { summary := Option.none, sql := "", rows := [], ms := 0,
        err := Option.none },
    moodOf := fun _ => "neutral" }

-- ---------------------------------------------------------------------
-- Helper lemmas on slot maps
-- ---------------------------------------------------------------------

/-- In-place replacement of another key preserves lookups of `k`. -/
theorem pyGet_setExisting_ne (t : Slots) (kx k : String) (v : Val)
    (hkk : (kx == k) = false) :
    pyGet (setExisting t kx v) k = pyGet t k := by
  induction t with
  | nil => rfl
  | cons p t ih =>
      by_cases hpk : (p.1 == kx) = true
      · have hp1 : p.1 = kx := by simpa using hpk
        have h2 : (p.1 == k) = false := by rw [hp1]; exact hkk
        simp only [setExisting, hpk, if_true, pyGet, hkk, h2,
          Bool.false_eq_true, if_false, ih]
      · simp only [setExisting, hpk, Bool.false_eq_true, if_false, pyGet, ih]

/-- Appending a binding of another key preserves lookups of `k`. -/
theorem pyGet_append_ne (t : Slots) (kx k : String) (v : Val)
    (hkk : (kx == k) = false) :
    pyGet (t ++ [(kx, v)]) k = pyGet t k := by
  induction t with
  | nil => simp [pyGet, hkk]
  | cons p t ih =>
      simp only [List.cons_append, pyGet, List.append_eq, ih]

/-- Setting one key leaves lookups of other keys unchanged. -/
theorem pyGet_set_ne (l : Slots) (kx k : String) (v : Val) (h : kx ≠ k) :
    pyGet (Slots.set l kx v) k = pyGet l k := by
  have hkk : (kx == k) = false := by simpa using h
  unfold Slots.set
  split
  · exact pyGet_setExisting_ne l kx k v hkk
  · exact pyGet_append_ne l kx k v hkk

/-- Setting an existing key yields that value at that key. -/
theorem pyGet_setExisting_self (l : Slots) (k : String) (v : Val)
    (h : hasKey l k = true) : pyGet (setExisting l k v) k = v := by
  induction l with
  | nil => simp [hasKey] at h
  | cons p t ih =>
      by_cases hpk : (p.1 == k) = true
      · simp [setExisting, hpk, pyGet]
      · have h2 : hasKey t k = true := by
          simpa [hasKey, hpk] using h
        simp only [setExisting, hpk, Bool.false_eq_true, if_false, pyGet,
          ih h2]

/-- Appending a fresh binding of `k` makes lookups of `k` find it. -/
theorem pyGet_append_self (l : Slots) (k : String) (v : Val)
    (h : hasKey l k = false) : pyGet (l ++ [(k, v)]) k = v := by
  induction l with
  | nil => simp [pyGet]
  | cons p t ih =>
      have hp : (p.1 == k) = false := by
        by_contra hc
        simp only [Bool.not_eq_false] at hc
        simp [hasKey, hc] at h
      have ht : hasKey t k = false := by
        simpa [hasKey, hp] using h
      simp only [List.cons_append, pyGet, hp, Bool.false_eq_true, if_false]
      exact ih ht

/-- Setting any key yields that value at that key. -/
theorem pyGet_set_self (l : Slots) (k : String) (v : Val) :
    pyGet (Slots.set l k v) k = v := by
  unfold Slots.set
  split
  · exact pyGet_setExisting_self l k v (by assumption)
  · exact pyGet_append_self l k v (by simpa using (by assumption :
      ¬ hasKey l k = true))

/-- In-place replacement preserves `hasKey`. -/
theorem hasKey_setExisting (t : Slots) (kx k : String) (v : Val)
    (hkk : (kx == k) = false) :
    hasKey (setExisting t kx v) k = hasKey t k := by
  induction t with
  | nil => rfl
  | cons p t ih =>
      by_cases hpk : (p.1 == kx) = true
      · have hp1 : p.1 = kx := by simpa using hpk
        have h2 : (p.1 == k) = false := by rw [hp1]; exact hkk
        simp only [setExisting, hpk, if_true, hasKey, hkk, h2, ih]
      · simp only [setExisting, hpk, Bool.false_eq_true, if_false, hasKey, ih]

/-- Appending a binding of another key preserves `hasKey`. -/
theorem hasKey_append_ne (t : Slots) (kx k : String) (v : Val)
    (hkk : (kx == k) = false) :
    hasKey (t ++ [(kx, v)]) k = hasKey t k := by
  induction t with
  | nil => simp [hasKey, hkk]
  | cons p t ih =>
      simp only [List.cons_append, hasKey, List.append_eq, ih]

/-- Setting a key that is not `k` leaves `hasKey k` unchanged. -/
theorem hasKey_set_ne (l : Slots) (kx k : String) (v : Val) (h : kx ≠ k) :
    hasKey (Slots.set l kx v) k = hasKey l k := by
  have hkk : (kx == k) = false := by simpa using h
  unfold Slots.set
  split
  · exact hasKey_setExisting l kx k v hkk
  · exact hasKey_append_ne l kx k v hkk

/-- A key absent from a list stays absent after filtering. -/
theorem hasKey_filter_false (l : Slots) (p : String × Val → Bool) (k : String)
    (h : hasKey l k = false) : hasKey (l.filter p) k = false := by
  induction l with
  | nil => rfl
  | cons q t ih =>
      have hq : (q.1 == k) = false := by
        by_contra hc
        simp only [Bool.not_eq_false] at hc
        simp [hasKey, hc] at h
      have ht : hasKey t k = false := by
        simpa [hasKey, hq] using h
      by_cases hpq : p q
      · simp only [List.filter_cons, hpq, if_true, hasKey, hq,
          Bool.false_or]
        exact ih ht
      · simp only [List.filter_cons, hpq, Bool.false_eq_true, if_false]
        exact ih ht

/-- Keys distinct from every ephemeral key. -/
theorem mem_ephemeral_ne {kx k : String}
    (hk : ephemeralKeys.contains k = true)
    (hkx : ephemeralKeys.contains kx = false) : kx ≠ k := by
  intro he
  rw [he, hk] at hkx
  exact Bool.true_eq_false.mp hkx

/-- The durable merge of add_user_turn never introduces an ephemeral key. -/
theorem mergeDurable_no_ephemeral (turn : Slots) (k : String)
    (hk : ephemeralKeys.contains k = true) :
    ∀ old : Slots, hasKey old k = false →
      hasKey (mergeDurable old turn) k = false := by
  unfold mergeDurable
  induction turn with
  | nil => intro old h; simpa using h
  | cons kv t ih =>
      intro old h
      simp only [List.foldl_cons]
      by_cases he : ephemeralKeys.contains kv.1 = true
      · simp only [he, if_true]
        exact ih old h
      · have he2 : ephemeralKeys.contains kv.1 = false := by
          simpa using he
        simp only [he2, Bool.false_eq_true, if_false]
        by_cases hs : mergeSkips kv.2 = true
        · simp only [hs, if_true]
          exact ih old h
        · have hs2 : mergeSkips kv.2 = false := by simpa using hs
          simp only [hs2, Bool.false_eq_true, if_false]
          refine ih (Slots.set old kv.1 kv.2) ?_
          rw [hasKey_set_ne old kv.1 k kv.2 (mem_ephemeral_ne hk he2)]
          exact h

-- ---------------------------------------------------------------------
-- Claim C1
-- ---------------------------------------------------------------------

/-- C1: the claim states that the extraction stage never raises for any
input, in particular for utterances matching the limit patterns "top N",
"first N" and "next N".  This is false: on "next 5" the limit regex matches
through its third alternative, both of the groups read by
`int(m.group(1) or m.group(2))` are None, and `int(None)` raises TypeError,
while "top 3" and "first 4" extract normally.  This theorem evaluates the
embedded `analyze` at the failing input and at the two working ones. -/
theorem c1_analyze_raises_on_next_n :
    analyze "next 5" initState =
      Except.error "TypeError: int() of None, LIMIT_PAT third group"
    ∧ analyze "top 3" initState =
      Except.ok ("CONSTATIVE", "generic",
        [("act_subtype", Val.str "STATE"), ("limit", Val.int 3),
         ("sort", Val.str "best")])
    ∧ analyze "first 4" initState =
      Except.ok ("CONSTATIVE", "generic",
        [("act_subtype", Val.str "STATE"), ("limit", Val.int 4)]) := by
  exact ⟨by rfl, by rfl, by rfl⟩

-- ---------------------------------------------------------------------
-- Claim C8
-- ---------------------------------------------------------------------

/-- C8: the claim states that every utterance matching the strong database
keyword pattern makes `analyze` return intent db_query.  The final override
does force db_query whenever `analyze` returns — but on
"schedule next 5 tasks" the DB pattern matches (schedule, tasks) and
`analyze` raises the "next N" limit TypeError before reaching the override,
so it returns nothing at all. -/
theorem c8_db_override_fails_on_next_n :
    dbHardPat.search
      (normalizeTypos (pyLower (pyStrip "schedule next 5 tasks"))) = true
    ∧ analyze "schedule next 5 tasks" initState =
      Except.error "TypeError: int() of None, LIMIT_PAT third group" := by
  exact ⟨by rfl, by rfl⟩

-- ---------------------------------------------------------------------
-- Claim C4
-- ---------------------------------------------------------------------

/-- The fixed tier table exactly as the claim words it (the comparand for
the refinement check of C4): anonymous or unverified gives
neutral/normal/mid; verified with role_level at most 2 gives
formal/brief/premium; 3 to 4 gives neutral/normal/mid; at least 5 or a null
role_level gives casual/detailed/budget. -/
def claimTierTable (verified : Bool) (privacy : String) (lvl : Option Int) :
    String × String × String :=
  if privacy = "anonymous" ∨ verified = false then ("neutral", "normal", "mid")
  else
    match lvl with
    | some l =>
        if l ≤ 2 then ("formal", "brief", "premium")
        else if 3 ≤ l ∧ l ≤ 4 then ("neutral", "normal", "mid")
        else ("casual", "detailed", "budget")
    | Option.none => ("casual", "detailed", "budget")

/-- C4: update_user_identity is idempotent on tone/verbosity/price_band
(calling it twice with identical arguments yields identical values), and
after every call the three fields agree with the fixed tier table of the
claim at the resulting (verified, privacy_mode, role_level). -/
theorem c4_identity_idempotent_and_tiered (s : DialogueState)
    (name : Option String) (sid : Option Int) (role : Option String)
    (lvl : Option Int) (dept : Option String) (pm : String) :
    ((updateUserIdentity (updateUserIdentity s name sid role lvl dept pm)
        name sid role lvl dept pm).user_profile.tone =
      (updateUserIdentity s name sid role lvl dept pm).user_profile.tone
     ∧ (updateUserIdentity (updateUserIdentity s name sid role lvl dept pm)
        name sid role lvl dept pm).user_profile.verbosity =
      (updateUserIdentity s name sid role lvl dept pm).user_profile.verbosity
     ∧ (updateUserIdentity (updateUserIdentity s name sid role lvl dept pm)
        name sid role lvl dept pm).user_profile.price_band =
      (updateUserIdentity s name sid role lvl dept pm).user_profile.price_band)
    ∧ ((updateUserIdentity s name sid role lvl dept pm).user_profile.tone,
       (updateUserIdentity s name sid role lvl dept pm).user_profile.verbosity,
       (updateUserIdentity s name sid role lvl dept pm).user_profile.price_band)
      = claimTierTable
          (updateUserIdentity s name sid role lvl dept pm).user_profile.verified
          (updateUserIdentity s name sid role lvl dept pm).user_profile.privacy_mode
          lvl := by
  rcases sid with _ | n <;> rcases lvl with _ | l <;>
    by_cases hpm : pm = "anonymous" <;>
      simp only [updateUserIdentity, claimTierTable, hpm] <;>
        (try simp) <;>
        (try (by_cases hn : n = 0 <;> simp [hn])) <;>
        (try (split_ifs <;> first | rfl | (exfalso; omega)))

-- ---------------------------------------------------------------------
-- Claim C5
-- ---------------------------------------------------------------------

/-- The mutating public operations of DialogueState, reified. -/
inductive StateOp where
  | userTurn (text act_major : String) (act_subtype : Val) (intent : String)
      (slots : Slots) (mood : String)
  | assistantTurn (text : String) (slots : Slots)
  | toolEvent (ev : ToolEvent)
  | dbResult (sql : String) (rows : List DbRow) (ms : Int)
      (err : Option String)
  | kgResult (sparql : String) (bs : List KgRow) (ms : Int)
      (err : Option String)
  | identity (name : Option String) (sid : Option Int) (role : Option String)
      (lvl : Option Int) (dept : Option String) (pm : String)
  | topics (intent : String) (slots : Slots)

/-- Interpret one public operation on the state. -/
def applyOp (s : DialogueState) : StateOp → DialogueState
  | StateOp.userTurn t am asub i sl m => addUserTurn s t am asub i sl m
  | StateOp.assistantTurn t sl => addAssistantTurn s t sl
  | StateOp.toolEvent ev => attachToolEvent s ev
  | StateOp.dbResult q rows ms err => logDbResult s q rows ms err
  | StateOp.kgResult q bs ms err => logKgResult s q bs ms err
  | StateOp.identity n sid r lvl d pm => updateUserIdentity s n sid r lvl d pm
  | StateOp.topics i sl => updateTopics s i sl

/-- No ephemeral key (confirm, cancel, act_subtype) is present in the
durable slot map. -/
def noEphemeral (s : DialogueState) : Prop :=
  hasKey s.slots "confirm" = false ∧ hasKey s.slots "cancel" = false
    ∧ hasKey s.slots "act_subtype" = false

/-- The durable slot map after update_topics_and_entities is the old one or
its domain-key filtering. -/
theorem updateTopics_slots_cases (s : DialogueState) (i : String)
    (sl : Slots) :
    (updateTopics s i sl).slots = s.slots ∨
    (updateTopics s i sl).slots =
      s.slots.filter (fun p => !(domainKeys.contains p.1)) := by
  unfold updateTopics
  split
  · left; rfl
  · split
    · right; rfl
    · left; rfl

/-- C5: the durable slot map of a fresh session has no ephemeral key, every
public operation preserves that, and hence every state reachable by a
sequence of public operations (in particular every state in which a turn
has completed through add_user_turn) has none. -/
theorem c5_ephemeral_never_durable :
    noEphemeral initState
    ∧ (∀ (s : DialogueState) (op : StateOp),
        noEphemeral s → noEphemeral (applyOp s op))
    ∧ (∀ ops : List StateOp, noEphemeral (List.foldl applyOp initState ops)) := by
  have hinit : noEphemeral initState := ⟨rfl, rfl, rfl⟩
  have hpres : ∀ (s : DialogueState) (op : StateOp),
      noEphemeral s → noEphemeral (applyOp s op) := by
    intro s op h
    obtain ⟨h1, h2, h3⟩ := h
    cases op with
    | userTurn t am asub i sl m =>
        refine ⟨?_, ?_, ?_⟩
        · exact mergeDurable_no_ephemeral sl "confirm" (by decide) s.slots h1
        · exact mergeDurable_no_ephemeral sl "cancel" (by decide) s.slots h2
        · exact mergeDurable_no_ephemeral sl "act_subtype" (by decide)
            s.slots h3
    | assistantTurn t sl => exact ⟨h1, h2, h3⟩
    | toolEvent ev => exact ⟨h1, h2, h3⟩
    | dbResult q rows ms err => exact ⟨h1, h2, h3⟩
    | kgResult q bs ms err => exact ⟨h1, h2, h3⟩
    | identity n sid r lvl d pm => exact ⟨h1, h2, h3⟩
    | topics i sl =>
        rcases updateTopics_slots_cases s i sl with hc | hc <;>
          constructor <;> try constructor
        all_goals
          first
            | (rw [show (applyOp s (StateOp.topics i sl)).slots =
                  s.slots from hc]; assumption)
            | (rw [show (applyOp s (StateOp.topics i sl)).slots =
                  s.slots.filter (fun p => !(domainKeys.contains p.1))
                  from hc]
               first
                 | exact hasKey_filter_false _ _ _ h1
                 | exact hasKey_filter_false _ _ _ h2
                 | exact hasKey_filter_false _ _ _ h3)
  have hfold : ∀ (ops : List StateOp) (s : DialogueState), noEphemeral s →
      noEphemeral (List.foldl applyOp s ops) := by
    intro ops
    induction ops with
    | nil => intro s hs; simpa using hs
    | cons op t ih =>
        intro s hs
        simp only [List.foldl_cons]
        exact ih (applyOp s op) (hpres s op hs)
  exact ⟨hinit, hpres, fun ops => hfold ops initState hinit⟩

/-- C5 witness: one completed user turn from a fresh session, whose slot map
carries the cancel flag and the act subtype, leaves the durable map free of
ephemeral keys. -/
theorem c5_witness :
    noEphemeral (applyOp initState (StateOp.userTurn "hi, nvm"
      "ACKNOWLEDGMENT" (Val.str "GREET") "greet"
      [("cancel", Val.bool true), ("act_subtype", Val.str "GREET")]
      "neutral")) :=
  c5_ephemeral_never_durable.2.1 initState
    (StateOp.userTurn "hi, nvm" "ACKNOWLEDGMENT" (Val.str "GREET") "greet"
      [("cancel", Val.bool true), ("act_subtype", Val.str "GREET")]
      "neutral")
    (by exact ⟨rfl, rfl, rfl⟩)

-- ---------------------------------------------------------------------
-- Claims C6 and C10 : the durable merge
-- ---------------------------------------------------------------------

/-- If every binding of `k` in the turn map is merge-skipped, the durable
merge leaves lookups of `k` unchanged. -/
theorem mergeDurable_skip_at (slots : Slots) (k : String)
    (h : ∀ v : Val, (k, v) ∈ slots → mergeSkips v = true) :
    ∀ old : Slots, pyGet (mergeDurable old slots) k = pyGet old k := by
  unfold mergeDurable
  induction slots with
  | nil => intro old; rfl
  | cons kv t ih =>
      intro old
      have ht : ∀ v : Val, (k, v) ∈ t → mergeSkips v = true :=
        fun v hv => h v (List.mem_cons_of_mem _ hv)
      simp only [List.foldl_cons]
      by_cases he : ephemeralKeys.contains kv.1 = true
      · simp only [he, if_true]
        exact ih ht old
      · have he2 : ephemeralKeys.contains kv.1 = false := by simpa using he
        simp only [he2, Bool.false_eq_true, if_false]
        by_cases hs : mergeSkips kv.2 = true
        · simp only [hs, if_true]
          exact ih ht old
        · have hne : kv.1 ≠ k := by
            intro he3
            have hmem : (k, kv.2) ∈ kv :: t := by
              have : kv = (k, kv.2) := by
                rw [← he3]
              rw [this] at *
              exact List.mem_cons_self _ _
            exact hs (h kv.2 hmem)
          have hs2 : mergeSkips kv.2 = false := by simpa using hs
          simp only [hs2, Bool.false_eq_true, if_false]
          rw [ih ht (Slots.set old kv.1 kv.2)]
          exact pyGet_set_ne old kv.1 k kv.2 hne

/-- C6: merging an empty current-turn slot map leaves durable memory
unchanged, and a current-turn value that is explicitly None, the empty
string, or False never overwrites an existing durable value for its key. -/
theorem c6_merge_identity_and_falsy_never_overwrites :
    (∀ (s : DialogueState) (text am : String) (asub : Val) (i m : String),
      (addUserTurn s text am asub i [] m).slots = s.slots)
    ∧ (∀ (s : DialogueState) (text am : String) (asub : Val) (i m : String)
        (slots : Slots) (k : String),
        (∀ v : Val, (k, v) ∈ slots →
          v = Val.none ∨ v = Val.str "" ∨ v = Val.bool false) →
        pyGet (addUserTurn s text am asub i slots m).slots k =
          pyGet s.slots k) := by
  constructor
  · intro s text am asub i m
    rfl
  · intro s text am asub i m slots k h
    refine mergeDurable_skip_at slots k ?_ s.slots
    intro v hv
    rcases h v hv with h1 | h1 | h1 <;> rw [h1] <;> rfl

/-- C6 witness: an empty-string neighborhood and an explicit-false wifi flag
do not overwrite the remembered neighborhood and wifi values. -/
theorem c6_witness :
    pyGet (addUserTurn { initState with
        slots := [("wifi", Val.bool true), ("neighborhood", Val.str "Plaka")] }
      "no wifi" "CONSTATIVE" (Val.str "STATE") "generic"
      [("wifi", Val.bool false)] "neutral").slots "wifi" =
      pyGet [("wifi", Val.bool true), ("neighborhood", Val.str "Plaka")]
        "wifi" :=
  c6_merge_identity_and_falsy_never_overwrites.2
    { initState with
        slots := [("wifi", Val.bool true), ("neighborhood", Val.str "Plaka")] }
    "no wifi" "CONSTATIVE" (Val.str "STATE") "generic" "neutral"
    [("wifi", Val.bool false)] "wifi"
    (by
      intro v hv
      simp only [List.mem_singleton] at hv
      exact Or.inr (Or.inr (congrArg Prod.snd hv)))

/-- Filtering away only bindings of other keys preserves lookups of `k`. -/
theorem pyGet_filter_other (l : Slots) (p : String × Val → Bool) (k : String)
    (hp : ∀ v : Val, p (k, v) = true) :
    pyGet (l.filter p) k = pyGet l k := by
  induction l with
  | nil => rfl
  | cons q t ih =>
      by_cases hq : (q.1 == k) = true
      · have hq1 : q.1 = k := by simpa using hq
        have hpq : p q = true := by
          have : q = (k, q.2) := by rw [← hq1]
          rw [this]
          exact hp q.2
        simp only [List.filter_cons, hpq, if_true, pyGet, hq, if_true]
      · by_cases hpq : p q = true
        · simp only [List.filter_cons, hpq, if_true, pyGet, hq,
            Bool.false_eq_true, if_false, ih]
        · have hpq2 : p q = false := by simpa using hpq
          simp only [List.filter_cons, hpq2, Bool.false_eq_true, if_false,
            pyGet, hq, ih]

/-- If every binding of `k` in the turn map is merge-skipped, the router's
merge loop leaves lookups of `k` unchanged. -/
theorem routerMergeFold_skip_at (turn : Slots) (k : String)
    (h : ∀ v : Val, (k, v) ∈ turn → mergeSkips v = true) :
    ∀ acc : Slots,
      pyGet (turn.foldl (fun acc kv =>
        if !(routerEphemeral.contains kv.1) && !(mergeSkips kv.2) then
          acc.set kv.1 kv.2
        else acc) acc) k = pyGet acc k := by
  induction turn with
  | nil => intro acc; rfl
  | cons kv t ih =>
      intro acc
      have ht : ∀ v : Val, (k, v) ∈ t → mergeSkips v = true :=
        fun v hv => h v (List.mem_cons_of_mem _ hv)
      simp only [List.foldl_cons]
      by_cases hc : (!(routerEphemeral.contains kv.1)
          && !(mergeSkips kv.2)) = true
      · have hne : kv.1 ≠ k := by
          intro he3
          have hmem : (k, kv.2) ∈ kv :: t := by
            have : kv = (k, kv.2) := by rw [← he3]
            rw [this] at *
            exact List.mem_cons_self _ _
          have := h kv.2 hmem
          rw [this] at hc
          simp at hc
        simp only [hc, if_true]
        rw [ih ht (Slots.set acc kv.1 kv.2)]
        exact pyGet_set_ne acc kv.1 k kv.2 hne
      · have hc2 : (!(routerEphemeral.contains kv.1)
            && !(mergeSkips kv.2)) = false := by simpa using hc
        simp only [hc2, Bool.false_eq_true, if_false]
        exact ih ht acc

/-- C10 (implicit): because Python `in` compares by equality and
`0 == False`, a current-turn value of 0 or 0.0 is treated as empty by both
merge loops and never overwrites an existing durable value. -/
theorem c10_zero_values_never_merged :
    pyEq (Val.int 0) (Val.bool false) = true
    ∧ pyEq (Val.float 0) (Val.bool false) = true
    ∧ (∀ (s : DialogueState) (text am : String) (asub : Val) (i m : String)
        (slots : Slots) (k : String),
        (∀ v : Val, (k, v) ∈ slots → v = Val.int 0 ∨ v = Val.float 0) →
        pyGet (addUserTurn s text am asub i slots m).slots k =
          pyGet s.slots k)
    ∧ (∀ (durable turn : Slots) (k : String),
        routerEphemeral.contains k = false →
        (∀ v : Val, (k, v) ∈ turn → v = Val.int 0 ∨ v = Val.float 0) →
        pyGet (routerMerge durable turn) k = pyGet durable k) := by
  refine ⟨rfl, by decide, ?_, ?_⟩
  · intro s text am asub i m slots k h
    refine mergeDurable_skip_at slots k ?_ s.slots
    intro v hv
    rcases h v hv with h1 | h1 <;> rw [h1] <;> decide
  · intro durable turn k hk h
    unfold routerMerge
    have hstep : ∀ v : Val, (k, v) ∈ turn → mergeSkips v = true := by
      intro v hv
      rcases h v hv with h1 | h1 <;> rw [h1] <;> decide
    rw [routerMergeFold_skip_at turn k hstep]
    refine pyGet_filter_other durable _ k ?_
    intro v
    show (!(routerEphemeral.contains k)) = true
    rw [hk]
    rfl

/-- C10 witness: an extracted price_max of 0 and rating_min of 0.0 leave the
remembered values in place, in both merge loops. -/
theorem c10_witness :
    pyGet (addUserTurn { initState with
        slots := [("price_max", Val.int 25)] }
      "under 0" "CONSTATIVE" (Val.str "STATE") "generic"
      [("price_max", Val.int 0)] "neutral").slots "price_max" =
      pyGet [("price_max", Val.int 25)] "price_max"
    ∧ pyGet (routerMerge [("rating_min", Val.float 4)]
        [("rating_min", Val.float 0)]) "rating_min" =
      pyGet [("rating_min", Val.float 4)] "rating_min" :=
  ⟨c10_zero_values_never_merged.2.2.1 { initState with
        slots := [("price_max", Val.int 25)] }
      "under 0" "CONSTATIVE" (Val.str "STATE") "generic" "neutral"
      [("price_max", Val.int 0)] "price_max"
      (by
        intro v hv
        simp only [List.mem_singleton] at hv
        exact Or.inl (congrArg Prod.snd hv)),
   c10_zero_values_never_merged.2.2.2 [("rating_min", Val.float 4)]
      [("rating_min", Val.float 0)] "rating_min" (by decide)
      (by
        intro v hv
        simp only [List.mem_singleton] at hv
        exact Or.inr (congrArg Prod.snd hv))⟩

-- ---------------------------------------------------------------------
-- Claim C3
-- ---------------------------------------------------------------------

/-- A cached KG row for the C3 scenario. -/
def c3Row : KgRow := [("label", "Kolonaki Cafe 1")]

/-- Durable memory after a food_search turn: a remembered venue type. -/
def c3Durable : Slots := [("type", Val.str "cafe")]

/-- The state before the place_info follow-up: durable type, populated KG
caches, and the stored fingerprint of the prior food_search turn. -/
def c3State : DialogueState :=
  { initState with
      slots := c3Durable,
      last_kg_rows := [c3Row],
      kg_detail_cache := [("Kolonaki Cafe 1", c3Row)],
      topic_id := some (topicFingerprint "food_search" c3Durable) }

/-- The merged slot map of the follow-up turn: it introduces no new venue
slot (the type is carried over unchanged from durable memory, as the router
merge does) — only a person reference resolved this turn is new. -/
def c3Merged : Slots := [("type", Val.str "cafe"), ("person", Val.str "Anna")]

/-- C3 counterexample: a place_info turn that introduces no new
type/neighborhood/cuisine value (each agrees with durable memory) and whose
fingerprint differs from the stored one nevertheless clears last_kg_rows,
kg_detail_cache and the durable domain slots, because the guard tests the
merged map, where the durable venue slot counts as a conflict. -/
theorem c3_counterexample :
    (pyGet c3Merged "type" = pyGet c3State.slots "type"
      ∧ pyGet c3Merged "neighborhood" = pyGet c3State.slots "neighborhood"
      ∧ pyGet c3Merged "cuisine" = pyGet c3State.slots "cuisine")
    ∧ c3State.topic_id ≠ some (topicFingerprint "place_info" c3Merged)
    ∧ c3State.last_kg_rows ≠ []
    ∧ (updateTopics c3State "place_info" c3Merged).last_kg_rows = []
    ∧ (updateTopics c3State "place_info" c3Merged).kg_detail_cache = []
    ∧ (updateTopics c3State "place_info" c3Merged).slots = [] := by
  exact ⟨⟨rfl, rfl, rfl⟩, by decide, by decide, by decide, by decide,
    by decide⟩

/-- C3 amended: update_topics_and_entities preserves the KG caches and the
durable slots on a place_info turn exactly when the slot map it receives
has no truthy type/neighborhood/cuisine value (whether the fingerprint
shifted or not); durable venue slots carried into the merged map count as
conflicts. -/
theorem c3_amended_place_info_preserves (s : DialogueState) (slots : Slots)
    (ht : truthy (pyGet slots "type") = false)
    (hn : truthy (pyGet slots "neighborhood") = false)
    (hc : truthy (pyGet slots "cuisine") = false) :
    (updateTopics s "place_info" slots).last_kg_rows = s.last_kg_rows
    ∧ (updateTopics s "place_info" slots).kg_detail_cache = s.kg_detail_cache
    ∧ (updateTopics s "place_info" slots).slots = s.slots
    ∧ (updateTopics s "place_info" slots).next_expected = s.next_expected := by
  have hcf : introducedConflict slots = false := by
    unfold introducedConflict
    rw [ht, hn, hc]
    rfl
  have hguard : (topicShifted (updateTopicsEnt s slots)
      (topicFingerprint "place_info" slots)
      && !(decide ("place_info" = "place_info")
           && !(introducedConflict slots))) = false := by
    rw [hcf]
    simp
  unfold updateTopics
  split
  · exact ⟨rfl, rfl, rfl, rfl⟩
  · rw [hguard]
    simp only [Bool.false_eq_true, if_false]
    exact ⟨rfl, rfl, rfl, rfl⟩

/-- C3 witness: a detail-shaped place_info follow-up whose merged map has
only a non-venue slot preserves the caches even though the stored
fingerprint differs. -/
def c3WitnessState : DialogueState :=
  { initState with
      last_kg_rows := [c3Row],
      topic_id := some "prior" }

theorem c3_witness :
    (updateTopics c3WitnessState "place_info"
      [("person", Val.str "Anna")]).last_kg_rows =
      c3WitnessState.last_kg_rows :=
  (c3_amended_place_info_preserves c3WitnessState
    [("person", Val.str "Anna")] (by decide) (by decide) (by decide)).1

-- ---------------------------------------------------------------------
-- Claim C9
-- ---------------------------------------------------------------------

/-- The pronoun branch touches only the person slot. -/
theorem resolvePerson_get_ne (s : DialogueState) (t : String) (slots : Slots)
    (k : String) (h : k ≠ "person") :
    pyGet (resolvePerson s t slots) k = pyGet slots k := by
  unfold resolvePerson
  split
  · split
    · exact pyGet_set_ne slots "person" k s.last_entities.person (Ne.symm h)
    · rfl
  · rfl

/-- A truthy person value is never replaced by the pronoun branch. -/
theorem resolvePerson_truthy (s : DialogueState) (t : String) (slots : Slots)
    (h : truthy (pyGet slots "person") = true) :
    resolvePerson s t slots = slots := by
  unfold resolvePerson
  rw [h]
  simp

/-- Without a pronoun substring the pronoun branch does nothing. -/
theorem resolvePerson_nopron (s : DialogueState) (t : String) (slots : Slots)
    (h : (containsSub t "him" || containsSub t "her"
      || containsSub t "them") = false) :
    resolvePerson s t slots = slots := by
  unfold resolvePerson
  rw [h]
  simp

/-- The locative branch touches only the neighborhood and type slots. -/
theorem resolvePlace_get_ne (s : DialogueState) (t : String) (slots : Slots)
    (k : String) (h1 : k ≠ "neighborhood") (h2 : k ≠ "type") :
    pyGet (resolvePlace s t slots) k = pyGet slots k := by
  unfold resolvePlace resolvePlaceHit
  split
  · by_cases hn : truthy (lastVenueNeigh s) = true
    · simp only [hn, if_true]
      split
      · rw [pyGet_set_ne _ "type" k _ (Ne.symm h2)]
        exact pyGet_set_ne slots "neighborhood" k _ (Ne.symm h1)
      · exact pyGet_set_ne slots "neighborhood" k _ (Ne.symm h1)
    · have hn2 : truthy (lastVenueNeigh s) = false := by simpa using hn
      simp only [hn2, Bool.false_eq_true, if_false]
      split
      · exact pyGet_set_ne slots "type" k _ (Ne.symm h2)
      · rfl
  · rfl

/-- When the guard of the locative branch fails, nothing changes. -/
theorem resolvePlace_guard_false (s : DialogueState) (t : String)
    (slots : Slots)
    (h : ((containsSub t "there" || containsSub t "that place"
      || containsSub t "it")
      && !(truthy (pyGet slots "place"))
      && !(truthy (pyGet slots "neighborhood"))) = false) :
    resolvePlace s t slots = slots := by
  unfold resolvePlace
  rw [h]
  simp

/-- A truthy type value is never replaced by the locative branch. -/
theorem resolvePlace_type_truthy (s : DialogueState) (t : String)
    (slots : Slots) (h : truthy (pyGet slots "type") = true) :
    pyGet (resolvePlace s t slots) "type" = pyGet slots "type" := by
  unfold resolvePlace resolvePlaceHit
  split
  · by_cases hn : truthy (lastVenueNeigh s) = true
    · have hty : pyGet (slots.set "neighborhood" (lastVenueNeigh s)) "type" =
          pyGet slots "type" :=
        pyGet_set_ne slots "neighborhood" "type" _ (by decide)
      simp only [hn, if_true, hty, h, Bool.not_true, Bool.and_false,
        Bool.false_eq_true, if_false]
    · have hn2 : truthy (lastVenueNeigh s) = false := by simpa using hn
      simp only [hn2, Bool.false_eq_true, if_false, h, Bool.not_true,
        Bool.and_false]
  · rfl

/-- The state remembered for the C9 counterexample: a prior person entity. -/
def c9Entities : Entities :=
  { person := Val.str "Anna", place := Val.none, venue := Option.none }

/-- See c9Entities. -/
def c9State : DialogueState :=
  { initState with last_entities := c9Entities }

/-- C9 counterexample: on "call her" with a slot map whose person slot is
present (with the empty string), resolve_references fills person from the
remembered entity anyway — so it both fills while a person slot exists and
overwrites a populated slot, refuting the claim as stated. -/
theorem c9_counterexample :
    hasKey [("person", Val.str "")] "person" = true
    ∧ pyGet [("person", Val.str "")] "person" = Val.str ""
    ∧ pyGet (resolveReferences c9State "call her" [("person", Val.str "")])
        "person" = Val.str "Anna" := by
  exact ⟨rfl, rfl, by decide⟩

/-- C9 amended: resolve_references fills person only when the text contains
"him"/"her"/"them" (as substrings) and the current person value is falsy
(a slot present with an empty/false/None value is treated as absent and may
be overwritten); it fills neighborhood/type only when the text contains
"there"/"that place"/"it" and both place and neighborhood values are falsy,
never replaces a truthy type value, changes no other key, and is
side-effect-free on the state (its result is only the returned slot map). -/
theorem c9_amended_resolution_conditions (s : DialogueState) (text : String)
    (slots : Slots) :
    (truthy (pyGet slots "person") = true →
      pyGet (resolveReferences s text slots) "person" = pyGet slots "person")
    ∧ ((containsSub (pyLower text) "him" = false
        ∧ containsSub (pyLower text) "her" = false
        ∧ containsSub (pyLower text) "them" = false) →
      pyGet (resolveReferences s text slots) "person" = pyGet slots "person")
    ∧ (truthy (pyGet slots "neighborhood") = true →
      pyGet (resolveReferences s text slots) "neighborhood" =
          pyGet slots "neighborhood"
        ∧ pyGet (resolveReferences s text slots) "type" = pyGet slots "type")
    ∧ (truthy (pyGet slots "place") = true →
      pyGet (resolveReferences s text slots) "neighborhood" =
          pyGet slots "neighborhood"
        ∧ pyGet (resolveReferences s text slots) "type" = pyGet slots "type")
    ∧ ((containsSub (pyLower text) "there" = false
        ∧ containsSub (pyLower text) "that place" = false
        ∧ containsSub (pyLower text) "it" = false) →
      pyGet (resolveReferences s text slots) "neighborhood" =
          pyGet slots "neighborhood"
        ∧ pyGet (resolveReferences s text slots) "type" = pyGet slots "type")
    ∧ (truthy (pyGet slots "type") = true →
      pyGet (resolveReferences s text slots) "type" = pyGet slots "type")
    ∧ (∀ k : String, k ≠ "person" → k ≠ "neighborhood" → k ≠ "type" →
      pyGet (resolveReferences s text slots) k = pyGet slots k) := by
  unfold resolveReferences
  refine ⟨?_, ?_, ?_, ?_, ?_, ?_, ?_⟩
  · intro h
    rw [resolvePerson_truthy s _ slots h]
    exact resolvePlace_get_ne s _ slots "person" (by decide) (by decide)
  · intro h
    rw [resolvePerson_nopron s _ slots (by
      rw [h.1, h.2.1, h.2.2]; rfl)]
    exact resolvePlace_get_ne s _ slots "person" (by decide) (by decide)
  · intro h
    have hn : pyGet (resolvePerson s (pyLower text) slots) "neighborhood" =
        pyGet slots "neighborhood" :=
      resolvePerson_get_ne s _ slots "neighborhood" (by decide)
    have hg : ((containsSub (pyLower text) "there"
        || containsSub (pyLower text) "that place"
        || containsSub (pyLower text) "it")
        && !(truthy (pyGet (resolvePerson s (pyLower text) slots) "place"))
        && !(truthy (pyGet (resolvePerson s (pyLower text) slots)
          "neighborhood"))) = false := by
      rw [hn, h]
      simp
    rw [resolvePlace_guard_false s _ _ hg]
    exact ⟨hn, resolvePerson_get_ne s _ slots "type" (by decide)⟩
  · intro h
    have hp : pyGet (resolvePerson s (pyLower text) slots) "place" =
        pyGet slots "place" :=
      resolvePerson_get_ne s _ slots "place" (by decide)
    have hg : ((containsSub (pyLower text) "there"
        || containsSub (pyLower text) "that place"
        || containsSub (pyLower text) "it")
        && !(truthy (pyGet (resolvePerson s (pyLower text) slots) "place"))
        && !(truthy (pyGet (resolvePerson s (pyLower text) slots)
          "neighborhood"))) = false := by
      rw [hp, h]
      simp
    rw [resolvePlace_guard_false s _ _ hg]
    exact ⟨resolvePerson_get_ne s _ slots "neighborhood" (by decide),
      resolvePerson_get_ne s _ slots "type" (by decide)⟩
  · intro h
    have hg : ((containsSub (pyLower text) "there"
        || containsSub (pyLower text) "that place"
        || containsSub (pyLower text) "it")
        && !(truthy (pyGet (resolvePerson s (pyLower text) slots) "place"))
        && !(truthy (pyGet (resolvePerson s (pyLower text) slots)
          "neighborhood"))) = false := by
      rw [h.1, h.2.1, h.2.2]
      rfl
    rw [resolvePlace_guard_false s _ _ hg]
    exact ⟨resolvePerson_get_ne s _ slots "neighborhood" (by decide),
      resolvePerson_get_ne s _ slots "type" (by decide)⟩
  · intro h
    have hty : pyGet (resolvePerson s (pyLower text) slots) "type" =
        pyGet slots "type" :=
      resolvePerson_get_ne s _ slots "type" (by decide)
    rw [resolvePlace_type_truthy s _ _ (by rw [hty]; exact h)]
    exact hty
  · intro k h1 h2 h3
    rw [resolvePlace_get_ne s _ _ k h2 h3]
    exact resolvePerson_get_ne s _ slots k h1

/-- C9 witness: with no pronoun or deictic in the text, every slot survives
resolution unchanged. -/
theorem c9_witness :
    pyGet (resolveReferences c9State "good food please"
        [("type", Val.str "cafe")]) "person" =
      pyGet [("type", Val.str "cafe")] "person" :=
  (c9_amended_resolution_conditions c9State "good food please"
    [("type", Val.str "cafe")]).2.1 (by exact ⟨by decide, by decide, by decide⟩)

-- ---------------------------------------------------------------------
-- Claim C2
-- ---------------------------------------------------------------------

/-- A pending action awaiting confirmation in the C2 scenarios. -/
def c2Pending : Slots := [("action", Val.str "book_table")]

/-- An ask-mode, unverified, not-yet-onboarded session with a pending
action. -/
def c2StateAsk : DialogueState :=
  { initState with pending_action := some c2Pending }

/-- C2 counterexample: on the utterance "cancel" the extracted slots set the
cancel flag, but because the onboarding gate runs before the cancellation
stage and the classified intent ("deny") is not in the gate's small-talk
skip set, the invocation returns the onboarding prompt and pending_action
is still set at the end of the turn. -/
theorem c2_counterexample :
    (analyze (routeTcls "cancel") c2StateAsk).toOption.map
        (fun a => pyGet a.2.2 "cancel") = some (Val.bool true)
    ∧ (route trivCollab "cancel" c2StateAsk).toOption.map
        (fun r => (r.state.pending_action.isSome, r.resp, r.calledKG,
          r.calledDB)) = some (true, Resp.onboarding, false, false) := by
  exact ⟨by decide, by decide⟩

/-- C2 amended: on every router invocation whose extracted slots set the
cancel flag, neither data-source collaborator is invoked; the invocation is
answered by the onboarding gate, the quick-acknowledgment short-circuit, or
the cancellation stage, and whenever it reaches the cancellation stage the
state's pending_action is null at the end of the invocation. -/
theorem c2_amended_cancel_short_circuit (co : Collab) (text : String)
    (s : DialogueState) (a : String × String × Slots) (r : RouteResult)
    (ha : analyze (routeTcls text) s = Except.ok a)
    (hc : truthy (pyGet (resolveReferences s text a.2.2) "cancel") = true)
    (hr : route co text s = Except.ok r) :
    r.calledKG = false ∧ r.calledDB = false
    ∧ (r.resp = Resp.onboarding ∨ r.resp = Resp.quickAck
        ∨ (r.resp = Resp.cancelAck
            ∧ r.state.pending_action = Option.none)) := by
  unfold route at hr
  rw [ha] at hr
  injection hr with hr
  subst hr
  unfold routeCore
  split_ifs <;>
    first
      | exact ⟨rfl, rfl, Or.inl rfl⟩
      | exact ⟨rfl, rfl, Or.inr (Or.inl rfl)⟩
      | exact ⟨rfl, rfl, Or.inr (Or.inr ⟨rfl, rfl⟩)⟩

/-- The C2 witness session: already onboarded, with a pending action. -/
def c2StateAsked : DialogueState :=
  { initState with
      pending_action := some c2Pending,
      asked_name_once := true }

/-- The concrete analysis of the witness invocation. -/
def c2RunAnalysis : String × String × Slots :=
  (analyze (routeTcls "cancel") c2StateAsked).toOption.getD ("", "", [])

/-- A dummy default for Option.getD (never used: the run succeeds). -/
def c2RunDefault : RouteResult :=
  { state := c2StateAsked, resp := Resp.llm, calledKG := true,
    calledDB := true }

/-- The concrete result of the witness invocation. -/
def c2Run : RouteResult :=
  (route trivCollab "cancel" c2StateAsked).toOption.getD c2RunDefault

/-- C2 witness: a "cancel" turn in an already-onboarded session reaches the
cancellation stage, invokes no collaborator, and nulls the pending
action. -/
theorem c2_witness :
    c2Run.calledKG = false ∧ c2Run.calledDB = false
    ∧ (c2Run.resp = Resp.onboarding ∨ c2Run.resp = Resp.quickAck
        ∨ (c2Run.resp = Resp.cancelAck
            ∧ c2Run.state.pending_action = Option.none)) :=
  c2_amended_cancel_short_circuit trivCollab "cancel" c2StateAsked
    c2RunAnalysis c2Run (by rfl) (by decide) (by rfl)

-- ---------------------------------------------------------------------
-- Claim C7
-- ---------------------------------------------------------------------

/-- update_topics_and_entities never changes the onboarding flag. -/
theorem updateTopics_asked (s : DialogueState) (i : String) (sl : Slots) :
    (updateTopics s i sl).asked_name_once = s.asked_name_once := by
  unfold updateTopics
  split
  · rfl
  · split
    · rfl
    · rfl

/-- add_user_turn never changes the onboarding flag. -/
theorem addUserTurn_asked (s : DialogueState) (t am : String) (asub : Val)
    (i : String) (sl : Slots) (m : String) :
    (addUserTurn s t am asub i sl m).asked_name_once = s.asked_name_once :=
  rfl

/-- log_kg_result never changes the onboarding flag. -/
theorem logKg_asked (s : DialogueState) (q : String) (bs : List KgRow)
    (ms : Int) (err : Option String) :
    (logKgResult s q bs ms err).asked_name_once = s.asked_name_once := rfl

/-- log_db_result never changes the onboarding flag. -/
theorem logDb_asked (s : DialogueState) (q : String) (rows : List DbRow)
    (ms : Int) (err : Option String) :
    (logDbResult s q rows ms err).asked_name_once = s.asked_name_once := rfl

/-- update_user_identity can only set the onboarding flag, never clear it. -/
theorem updateUserIdentity_asked_mono (s : DialogueState) (n : Option String)
    (sid : Option Int) (r : Option String) (lvl : Option Int)
    (d : Option String) (pm : String) (h : s.asked_name_once = true) :
    (updateUserIdentity s n sid r lvl d pm).asked_name_once = true := by
  unfold updateUserIdentity
  dsimp only
  split
  · rfl
  · exact h

/-- Router stage 1a can only set the onboarding flag, never clear it. -/
theorem routeSt1_asked_mono (co : Collab) (text : String)
    (s : DialogueState) (h : s.asked_name_once = true) :
    (routeSt1 co text s).asked_name_once = true := by
  unfold routeSt1 routeIdentity
  split
  · split
    · split
      · exact updateUserIdentity_asked_mono _ _ _ _ _ _ _ h
      · exact updateUserIdentity_asked_mono _ _ _ _ _ _ _ h
    · exact h
  · exact h

/-- The onboarding flag after the unconditional router stages equals the
flag after identity capture. -/
theorem routeSt3_asked (co : Collab) (text tcls : String)
    (s : DialogueState) (am i : String) (sl : Slots) :
    (routeSt3 co text tcls s am i sl).asked_name_once =
      (routeSt1 co text s).asked_name_once := by
  unfold routeSt3
  rw [addUserTurn_asked, updateTopics_asked]

/-- The KG dispatch step never changes the onboarding flag. -/
theorem routeKgStep_asked (co : Collab) (text : String) (st : DialogueState)
    (eff : String) (merged : Slots) :
    ((routeKgStep co text st eff merged).1).asked_name_once =
      st.asked_name_once := by
  unfold routeKgStep
  split
  · rfl
  · split
    · rfl
    · rfl

/-- The DB dispatch step never changes the onboarding flag. -/
theorem routeDbStep_asked (co : Collab) (text : String) (st : DialogueState)
    (eff : String) (merged : Slots) :
    ((routeDbStep co text st eff merged).1).asked_name_once =
      st.asked_name_once := by
  unfold routeDbStep
  split
  · rfl
  · rfl

/-- The data-source dispatch answers with the LLM response kind and never
changes the onboarding flag. -/
theorem routeDispatch_facts (co : Collab) (text : String)
    (st3 : DialogueState) (eff : String) (merged : Slots) :
    (routeDispatch co text st3 eff merged).resp = Resp.llm
    ∧ (routeDispatch co text st3 eff merged).state.asked_name_once =
      st3.asked_name_once := by
  refine ⟨rfl, ?_⟩
  show ((routeDbStep co text
      (routeKgStep co text st3 eff merged).1 eff merged).1).asked_name_once =
    st3.asked_name_once
  rw [routeDbStep_asked, routeKgStep_asked]

/-- Once set, the flag makes needs_onboarding false. -/
theorem needsOnboarding_false_of_asked (s : DialogueState)
    (h : s.asked_name_once = true) : needsOnboarding s = false := by
  unfold needsOnboarding
  rw [h]
  simp

/-- needs_onboarding forces the flag to be unset. -/
theorem asked_false_of_needsOnboarding (s : DialogueState)
    (h : needsOnboarding s = true) : s.asked_name_once = false := by
  unfold needsOnboarding at h
  simp only [Bool.and_eq_true, Bool.not_eq_true'] at h
  exact h.2

/-- The onboarding flag is monotone through every public operation. -/
theorem applyOp_asked_mono (s : DialogueState) (op : StateOp)
    (h : s.asked_name_once = true) :
    (applyOp s op).asked_name_once = true := by
  cases op with
  | userTurn t am asub i sl m => exact h
  | assistantTurn t sl => exact h
  | toolEvent ev => exact h
  | dbResult q rows ms err => exact h
  | kgResult q bs ms err => exact h
  | identity n sid r lvl d pm =>
      exact updateUserIdentity_asked_mono _ _ _ _ _ _ _ h
  | topics i sl =>
      rw [show (applyOp s (StateOp.topics i sl)).asked_name_once =
        s.asked_name_once from updateTopics_asked s i sl]
      exact h

/-- The router-level onboarding facts, on the routed core. -/
theorem routeCore_onboarding_facts (co : Collab) (text tcls : String)
    (s : DialogueState) (am i : String) (sl : Slots) :
    ((routeCore co text tcls s am i sl).resp = Resp.onboarding →
      s.asked_name_once = false
        ∧ (routeCore co text tcls s am i sl).state.asked_name_once = true)
    ∧ (s.asked_name_once = true →
      (routeCore co text tcls s am i sl).resp ≠ Resp.onboarding
        ∧ (routeCore co text tcls s am i sl).state.asked_name_once = true) := by
  have hcontra : needsOnboarding (routeSt3 co text tcls s am i sl) = true →
      s.asked_name_once = false := by
    intro hno
    have h3 : (routeSt3 co text tcls s am i sl).asked_name_once = false :=
      asked_false_of_needsOnboarding _ hno
    rw [routeSt3_asked] at h3
    by_cases hs : s.asked_name_once = true
    · rw [routeSt1_asked_mono co text s hs] at h3
      exact absurd h3 (by simp)
    · simpa using hs
  have hst3true : s.asked_name_once = true →
      (routeSt3 co text tcls s am i sl).asked_name_once = true := by
    intro hs
    rw [routeSt3_asked]
    exact routeSt1_asked_mono co text s hs
  unfold routeCore
  split_ifs with h1 h2 h3 h4 h5
  · refine ⟨fun _ => ⟨?_, rfl⟩, fun hs => ⟨?_, rfl⟩⟩
    · exact hcontra (by
        rcases Bool.and_eq_true _ _ |>.mp h1 with ⟨hl, _⟩
        exact hl)
    · exfalso
      rcases Bool.and_eq_true _ _ |>.mp h1 with ⟨hl, _⟩
      have := hcontra hl
      rw [hs] at this
      exact absurd this (by simp)
  · exact ⟨fun habs => absurd habs (by simp),
      fun hs => ⟨by simp, hst3true hs⟩⟩
  · exact ⟨fun habs => absurd habs (by simp),
      fun hs => ⟨by simp, hst3true hs⟩⟩
  · exact ⟨fun habs => absurd habs (by simp),
      fun hs => ⟨by simp, hst3true hs⟩⟩
  · exact ⟨fun habs => absurd habs (by simp),
      fun hs => ⟨by simp, hst3true hs⟩⟩
  · refine ⟨?_, ?_⟩
    · intro habs
      rw [(routeDispatch_facts co text _ _ _).1] at habs
      exact absurd habs (by simp)
    · intro hs
      refine ⟨?_, ?_⟩
      · rw [(routeDispatch_facts co text _ _ _).1]
        simp
      · rw [(routeDispatch_facts co text _ _ _).2]
        exact hst3true hs

/-- C7: needs_onboarding is exactly "ask-mode, unverified, not yet asked";
once the flag is set every public operation keeps it set and
needs_onboarding stays false; and at the router level an invocation that
returns the onboarding prompt starts from an un-asked session and sets the
flag, while an invocation on an already-asked session never returns the
onboarding prompt and keeps the flag set — so the prompt is returned at
most once per session. -/
theorem c7_onboarding_at_most_once :
    (∀ s : DialogueState, needsOnboarding s = true ↔
      (s.user_profile.privacy_mode = "ask" ∧ s.user_profile.verified = false
        ∧ s.asked_name_once = false))
    ∧ (∀ (s : DialogueState) (op : StateOp), s.asked_name_once = true →
        (applyOp s op).asked_name_once = true
          ∧ needsOnboarding (applyOp s op) = false)
    ∧ (∀ (co : Collab) (text : String) (s : DialogueState) (r : RouteResult),
        route co text s = Except.ok r →
        (r.resp = Resp.onboarding →
          s.asked_name_once = false ∧ r.state.asked_name_once = true)
        ∧ (s.asked_name_once = true →
          r.resp ≠ Resp.onboarding ∧ r.state.asked_name_once = true)) := by
  refine ⟨?_, ?_, ?_⟩
  · intro s
    unfold needsOnboarding
    simp [Bool.and_eq_true, Bool.not_eq_true', and_assoc]
  · intro s op h
    have hm := applyOp_asked_mono s op h
    exact ⟨hm, needsOnboarding_false_of_asked _ hm⟩
  · intro co text s r hr
    unfold route at hr
    rcases hhead : analyze (routeTcls text) s with e | a
    · rw [hhead] at hr
      exact absurd hr (by simp)
    · rw [hhead] at hr
      injection hr with hr
      subst hr
      exact routeCore_onboarding_facts co text (routeTcls text) s a.1 a.2.1
        (resolveReferences s text a.2.2)

/-- C7 witness: a fresh ask-mode session needs onboarding; a domain turn
returns the onboarding prompt, after which the flag is set. -/
theorem c7_witness :
    (initState.asked_name_once = false
      ∧ ((route trivCollab "what tasks are due" initState).toOption.getD
          c2RunDefault).state.asked_name_once = true) :=
  (c7_onboarding_at_most_once.2.2 trivCollab "what tasks are due" initState
    ((route trivCollab "what tasks are due" initState).toOption.getD
      c2RunDefault) (by rfl)).1 (by decide)
